import Mathlib

/-!
Verification development for the HALFTONE rendering pipeline
(worker.js together with the module catalog in data.js / app.js).

The worker's pixel pipeline is embedded shallowly:

* JavaScript doubles are modelled as exact rationals.  All the
  arithmetic the claims below depend on (clamping, rounding, the
  mulberry32 integer recurrence, the CMYK separations, channel sorting,
  parameter lookup) is exact in this model; transcendental library
  primitives (Math.sqrt, Math.exp, Math.pow) are fixed deterministic
  functions supplied by the browser, and are abstracted as explicit
  functional parameters in a BrowserEnv record.
* 8-bit image data (Uint8ClampedArray) is modelled by natural-number
  channel values together with the clamp-and-round store operation.
* Canvas2D vector rasterization (filling dots, arcs and rectangles with
  anti-aliasing) is not scalar source code of the repository; the pixel
  content produced by those fills is abstracted by a `paint` parameter.
  Everything the worker computes before handing coordinates, radii and
  colors to the canvas (ink math, seeds, sorting, per-plate indices,
  defect lists) is embedded from the source.
* Math.random() (used only by grain and the paper map) is modelled by an
  explicit entropy stream `ℕ → ℚ`, the n-th call returning entry n.
-/

namespace Halftone

/-- Clamp a rational to the unit interval, as Math.max(0, Math.min(1, x)). -/
def clamp01 (q : ℚ) : ℚ := max 0 (min 1 q)

/-- Round half to even, the rounding mode Uint8ClampedArray uses on store. -/
def roundHalfEven (q : ℚ) : ℤ :=
  let f := ⌊q⌋
  let r := q - f
  if r < 1/2 then f
  else if 1/2 < r then f + 1
  else if f % 2 = 0 then f else f + 1

/-- Store a rational into a Uint8ClampedArray cell: clamp to [0, 255] and
round half to even. -/
def jsClampByte (q : ℚ) : ℕ := (roundHalfEven (max 0 (min 255 q))).toNat

/-- One RGBA pixel of an ImageData buffer; channels are stored 8-bit values. -/
structure Pix where
  r : ℕ
  g : ℕ
  b : ℕ
  a : ℕ
deriving DecidableEq, Repr

/-- A raster image: width, height, and the pixel at each coordinate.  The
data function is total; only coordinates below the bounds are meaningful. -/
structure Raster where
  w : ℕ
  h : ℕ
  data : ℕ → ℕ → Pix

/-- Parameter values carried in the worker message: JS numbers or strings. -/
inductive PVal where
  | num (q : ℚ)
  | str (s : String)
deriving DecidableEq, Repr

/-- One module's parameter object: an association list, first match wins
(JS object property lookup). -/
abbrev ModuleParams := List (String × PVal)

/-- The moduleParams bundle: module id to parameter object. -/
abbrev Params := List (String × ModuleParams)

/-- Property lookup on a parameter object; none models JS undefined. -/
def getP : ModuleParams → String → Option PVal
  | [], _ => none
  | (k, v) :: rest, key => if k = key then some v else getP rest key

/-- Numeric parameter read; none when absent or not a number. -/
def getNum (m : ModuleParams) (key : String) : Option ℚ :=
  match getP m key with
  | some (PVal.num q) => some q
  | _ => none

/-- String parameter read; none when absent or not a string. -/
def getStr (m : ModuleParams) (key : String) : Option String :=
  match getP m key with
  | some (PVal.str s) => some s
  | _ => none

/-- Numeric parameter with 0 standing in for JS NaN when absent.  In the
worker a missing numeric parameter propagates NaN through the color math;
no theorem below depends on a color value computed from a missing
parameter, so 0 is used as the stand-in value. -/
def numOr0 (m : ModuleParams) (key : String) : ℚ := (getNum m key).getD 0

/-- Module entry lookup on the bundle P. -/
def getModule : Params → String → Option ModuleParams
  | [], _ => none
  | (k, v) :: rest, key => if k = key then some v else getModule rest key

/-- Array.prototype.indexOf on a list of strings: index of first match,
or -1. -/
def jsIndexOf (l : List String) (s : String) : ℤ :=
  match l.findIdx? (fun t => t = s) with
  | some i => (i : ℤ)
  | none => -1

/-- Split a character list on a separator (String.prototype.split
semantics: empty input gives one empty field, a trailing separator an
empty last field). -/
def splitOnChar (sep : Char) : List Char → List (List Char)
  | [] => [[]]
  | c :: rest =>
    let r := splitOnChar sep rest
    if c = sep then [] :: r
    else
      match r with
      | [] => [[c]]
      | hd :: tl => (c :: hd) :: tl

/-- String.prototype.split on the dash, as used for the laydown string. -/
def splitDash (s : String) : List String :=
  (splitOnChar '-' s.data).map (fun l => String.mk l)

/-! ### The seeded PRNG (worker.js 301-306 and 389-394)

The worker defines, twice, the arrow function

  const random = (seed) => {
    let t = seed += 0x6D2B79F5;
    t = Math.imul(t ^ t >>> 15, t | 1);
    t ^= t + Math.imul(t ^ t >>> 7, t | 61);
    return ((t ^ t >>> 14) >>> 0) / 4294967296;
  };

a pure function of its argument (the `seed +=` writes the local
parameter only).  JS bitwise operators work on the 32-bit pattern of
their operands; we carry the unsigned 32-bit pattern as a natural
number below 2^32.  Addition of two int32 values followed by a bitwise
coercion agrees with addition of the patterns mod 2^32. -/

/-- Reduce to an unsigned 32-bit pattern (JS ToInt32 / ToUint32 share it). -/
def u32 (n : ℕ) : ℕ := n % 4294967296

/-- Math.imul: 32-bit multiplication, result pattern. -/
def imul32 (a b : ℕ) : ℕ := u32 (a * b)

/-- The 32-bit pattern computed by one call random(seed). -/
def mulberryBits (seed : ℕ) : ℕ :=
  let t0 := u32 (seed + 0x6D2B79F5)
  let t1 := imul32 (Nat.xor t0 (t0 >>> 15)) (Nat.lor t0 1)
  let t2 := Nat.xor t1 (u32 (t1 + imul32 (Nat.xor t1 (t1 >>> 7)) (Nat.lor t1 61)))
  Nat.xor t2 (t2 >>> 14)

/-- random(seed): the PRNG output in [0, 1). -/
def mulberry (seed : ℕ) : ℚ := (mulberryBits seed : ℚ) / 4294967296

/-! ### Ink skip map (worker.js 294-341) -/

/-- blobCount = Math.max(3, Math.round((1 - scale) * 12 + 3))
(worker.js 296).  Math.round rounds half toward positive infinity,
exactly Lean's round on ℚ. -/
def blobCountRaw (scale : ℚ) : ℤ := max 3 (round ((1 - scale) * 12 + 3))

/-- adjustedBlobCount = blobCount * 3 (worker.js 297). -/
def adjustedBlobCount (scale : ℚ) : ℤ := blobCountRaw scale * 3

/-- Modelled from the spec sentence "Place N = round(max(3,
(1-scale)*12 + 3) * 3) elliptical blobs": the rounding taken of the
whole product, after the max.  Kept for comparison with the source's
adjustedBlobCount. -/
def specBlobCount (scale : ℚ) : ℤ := round (max 3 ((1 - scale) * 12 + 3) * 3)

/-- One elliptical starvation blob of the ink-skip map. -/
structure InkBlob where
  x : ℚ
  y : ℚ
  rx : ℚ
  ry : ℚ
  v : ℚ
deriving DecidableEq, Repr

/-- The blob list built by buildInkSkipMap (worker.js 308-319): the seed
starts at seedOffset * 1000 and advances by one per PRNG call, five calls
per blob in the order x, y, rx, ry, v. -/
def inkSkipBlobs (w h : ℕ) (intensity scale : ℚ) (seedOffset : ℕ)
    (feedDir : Option String) : List InkBlob :=
  let baseRadius := scale * (min w h : ℕ) * 0.6
  let rX := if feedDir = some "vertical" then baseRadius * 0.15 else baseRadius * 2.5
  let rY := if feedDir = some "vertical" then baseRadius * 2.5 else baseRadius * 0.15
  (List.range (adjustedBlobCount scale).toNat).map (fun i =>
    let s := seedOffset * 1000 + 5 * i
    { x := mulberry s * w
      y := mulberry (s + 1) * h
      rx := rX * (0.5 + mulberry (s + 2))
      ry := rY * (0.5 + mulberry (s + 3))
      v := (mulberry (s + 4) - 0.5) * 2 * intensity })

/-- The per-pixel accumulation of buildInkSkipMap (worker.js 320-339).
`sq` is the browser's Math.sqrt.  JS produces Infinity for a division by
a zero radius, never passing the dist < 1 test; Lean's total division
returns 0 in that degenerate case (a zero-size blob), which no claim
below exercises. -/
def inkSkipMapAt (sq : ℚ → ℚ) (blobs : List InkBlob) (intensity : ℚ)
    (x y : ℕ) : ℚ :=
  let acc := blobs.foldl (fun p b =>
    let dx := (x : ℚ) - b.x
    let dy := (y : ℚ) - b.y
    let dist := sq (dx * dx / (b.rx * b.rx) + dy * dy / (b.ry * b.ry))
    if dist < 1 then (p.1 + b.v * (1 - dist), p.2 + (1 - dist)) else p)
    ((0 : ℚ), (0 : ℚ))
  if 0 < acc.2 then max (-intensity) (min intensity (acc.1 / acc.2)) else 0

/-- buildInkSkipMap (worker.js 294-341) as a coordinate-indexed map. -/
def buildInkSkipMap (sq : ℚ → ℚ) (w h : ℕ) (intensity scale : ℚ)
    (seedOffset : ℕ) (feedDir : Option String) : ℕ → ℕ → ℚ :=
  fun x y => inkSkipMapAt sq (inkSkipBlobs w h intensity scale seedOffset feedDir) intensity x y

/-! ### Color parsing (worker.js 373-376) -/

/-- Value of one hexadecimal digit. -/
def hexDigit (c : Char) : Option ℕ :=
  if c.toNat ≥ 48 ∧ c.toNat ≤ 57 then some (c.toNat - 48)
  else if c.toNat ≥ 97 ∧ c.toNat ≤ 102 then some (c.toNat - 87)
  else if c.toNat ≥ 65 ∧ c.toNat ≤ 70 then some (c.toNat - 55)
  else none

/-- Remove the first '#' (String.prototype.replace with a string pattern
replaces the first occurrence only). -/
def removeFirstHash : List Char → List Char
  | [] => []
  | c :: rest => if c = '#' then rest else c :: removeFirstHash rest

/-- parseInt(two-character slice, 16): parses the longest valid prefix;
none models NaN. -/
def parseHexPair (l : List Char) (i : ℕ) : Option ℕ :=
  match l.get? i with
  | none => none
  | some a =>
    match hexDigit a with
    | none => none
    | some x =>
      match l.get? (i + 1) with
      | none => some x
      | some b =>
        match hexDigit b with
        | none => some x
        | some y => some (16 * x + y)

/-- parseCSSColor (worker.js 373-376): the three parsed channel values,
none standing for NaN. -/
def parseCSSColor (hex : String) : Option ℕ × Option ℕ × Option ℕ :=
  let c := removeFirstHash hex.data
  (parseHexPair c 0, parseHexPair c 2, parseHexPair c 4)

/-- Is the string a canvas-valid #rrggbb color?  Assignment of an invalid
string to ctx.fillStyle is ignored by the canvas. -/
def isHexColor (s : String) : Bool :=
  match s.data with
  | ['#', a, b, c, d, e, f] =>
    (hexDigit a).isSome && (hexDigit b).isSome && (hexDigit c).isSome &&
    (hexDigit d).isSome && (hexDigit e).isSome && (hexDigit f).isSome
  | _ => false

/-- The opaque pixel a fillRect paints after ctx.fillStyle = s.  An
invalid (or absent) color string leaves the context's previous fill
style in place; on a fresh context that is opaque black. -/
def cssFillPix (s : Option String) : Pix :=
  match s with
  | some str =>
    if isHexColor str then
      match parseCSSColor str with
      | (some r, some g, some b) => ⟨r, g, b, 255⟩
      | _ => ⟨0, 0, 0, 255⟩
    else ⟨0, 0, 0, 255⟩
  | none => ⟨0, 0, 0, 255⟩

/-! ### Hickeys (worker.js 378-409) -/

/-- One stamped donut defect: position, radii, and the darkened ring
color (none components model NaN from an unparsable ink color). -/
structure Hickey where
  x : ℚ
  y : ℚ
  outerR : ℚ
  innerR : ℚ
  ringR : Option ℕ
  ringG : Option ℕ
  ringB : Option ℕ
deriving DecidableEq, Repr

/-- Ring channel: Math.max(0, Math.min(255, Math.round(c * 0.6))). -/
def ringChannel (c : Option ℕ) : Option ℕ :=
  c.map (fun v => (max 0 (min 255 (round ((v : ℚ) * 0.6)))).toNat)

/-- applyPlateHickeys (worker.js 378-409) as the list of stamped defects.
The seed starts at plateIndex * 5000 and advances one per call, four
calls per defect in the order x, y, outerR, innerR.  The count < 1 and
sizeMax < 2 guard returns an empty list (a missing count or sizeMax is
NaN in JS, failing every comparison and stamping nothing visible; the
0-default of numOr0 takes the same empty branch). -/
def applyPlateHickeys (w h : ℕ) (hp : ModuleParams) (inkColorHex : Option String)
    (plateIndex : ℕ) : List Hickey :=
  let count := round (numOr0 hp "count")
  let sizeMax := numOr0 hp "sizeMax"
  if count < 1 ∨ sizeMax < 2 then []
  else
    let rgb := match inkColorHex with
      | some s => parseCSSColor s
      | none => (none, none, none)
    (List.range count.toNat).map (fun i =>
      let s := plateIndex * 5000 + 4 * i
      { x := mulberry s * w
        y := mulberry (s + 1) * h
        outerR := 2 + mulberry (s + 2) * (sizeMax - 2)
        innerR := (2 + mulberry (s + 2) * (sizeMax - 2)) * (0.35 + mulberry (s + 3) * 0.25)
        ringR := ringChannel rgb.1
        ringG := ringChannel rgb.2.1
        ringB := ringChannel rgb.2.2 })

/-! ### Paper map (worker.js 343-371)

buildPaperMap consumes unseeded Math.random(); `ent` is the entropy
stream, entry n being the n-th call.  The base pass makes one call per
pixel in row-major order; each fiber then makes four calls (fy, fx,
fLen, fVal). -/

/-- Pointwise update of a scalar field. -/
def mapAdd (m : ℕ → ℚ) (i : ℕ) (v : ℚ) : ℕ → ℚ :=
  fun j => if j = i then m j + v else m j

/-- Add one fiber stroke to the map (the inner dx/dy loop of
buildPaperMap; the loop's bound check stops at the image edge, and the
offsets grow monotonically, so a guard inside a full range fold is
equivalent to the early exit). -/
def addFiber (w h : ℕ) (feedDir : Option String) (fx fy fLen : ℕ) (fVal : ℚ)
    (m : ℕ → ℚ) : ℕ → ℚ :=
  if feedDir = some "horizontal" then
    (List.range fLen).foldl (fun acc dx =>
      if fx + dx < w then mapAdd acc (fy * w + fx + dx) (fVal * (1 - (dx : ℚ) / fLen)) else acc) m
  else
    (List.range fLen).foldl (fun acc dy =>
      if fy + dy < h then mapAdd acc ((fy + dy) * w + fx) (fVal * (1 - (dy : ℚ) / fLen)) else acc) m

/-- buildPaperMap (worker.js 343-371). -/
def buildPaperMap (ent : ℕ → ℚ) (w h : ℕ) (texture fibers : ℚ)
    (feedDir : Option String) : ℕ → ℚ :=
  let base : ℕ → ℚ := fun j => if j < w * h then (ent j - 0.5) * 2 * texture else 0
  if 0 < fibers then
    let fiberCount := (round ((max w h : ℕ) * fibers * 0.3)).toNat
    (List.range fiberCount).foldl (fun m f =>
      let s := w * h + 4 * f
      let fy := (⌊ent s * h⌋).toNat
      let fx := (⌊ent (s + 1) * w⌋).toNat
      let fLen := (⌊ent (s + 2) * (max w h : ℕ) * 0.2⌋).toNat + 10
      let fVal := (ent (s + 3) - 0.5) * fibers * 2
      addFiber w h feedDir fx fy fLen fVal m) base
  else base

/-! ### Luminance tables (worker.js 33-40) and film stocks (42-68) -/

/-- LUM_R[i] = i * 0.299 (precomputed Float32 table; exact here). -/
def LUM_R (i : ℕ) : ℚ := i * 0.299

/-- LUM_G[i] = i * 0.587. -/
def LUM_G (i : ℕ) : ℚ := i * 0.587

/-- LUM_B[i] = i * 0.114. -/
def LUM_B (i : ℕ) : ℚ := i * 0.114

/-- The luminance byte index Math.round(LUM_R[r] + LUM_G[g] + LUM_B[b])
used by applyVelox (worker.js 265) to address its 256-entry LUT. -/
def lumIndex (r g b : ℕ) : ℤ := round (LUM_R r + LUM_G g + LUM_B b)

/-- Five curve control points of one channel of a film stock. -/
structure StockCurve where
  black : ℚ
  shadows : ℚ
  midtone : ℚ
  highlights : ℚ
  white : ℚ

/-- Halation spec of one stock. -/
structure HalationSpec where
  radius : ℚ
  tintR : ℚ
  tintG : ℚ
  tintB : ℚ
  strength : ℚ

/-- One FILM_STOCKS entry. -/
structure FilmStock where
  bw : Bool
  curveR : StockCurve
  curveG : StockCurve
  curveB : StockCurve
  saturation : ℚ
  bwWR : ℚ
  bwWG : ℚ
  bwWB : ℚ
  halation : HalationSpec

/-- The FILM_STOCKS catalog (worker.js 42-68); color stocks carry zero
bwWeights (the field is absent in JS and never read for them). -/
def FILM_STOCKS (id : String) : Option FilmStock :=
  if id = "trix" then some
    { bw := true
      curveR := ⟨0.02, 0.14, 0.52, 0.85, 0.98⟩
      curveG := ⟨0.02, 0.14, 0.52, 0.85, 0.98⟩
      curveB := ⟨0.02, 0.14, 0.52, 0.85, 0.98⟩
      saturation := 0, bwWR := 0.35, bwWG := 0.50, bwWB := 0.15
      halation := ⟨4, 200, 200, 200, 0.06⟩ }
  else if id = "hp5" then some
    { bw := true
      curveR := ⟨0.03, 0.19, 0.50, 0.80, 0.96⟩
      curveG := ⟨0.03, 0.19, 0.50, 0.80, 0.96⟩
      curveB := ⟨0.03, 0.19, 0.50, 0.80, 0.96⟩
      saturation := 0, bwWR := 0.30, bwWG := 0.55, bwWB := 0.15
      halation := ⟨4, 200, 200, 200, 0.04⟩ }
  else if id = "kodachrome" then some
    { bw := false
      curveR := ⟨0.03, 0.22, 0.55, 0.83, 0.97⟩
      curveG := ⟨0.02, 0.17, 0.48, 0.78, 0.95⟩
      curveB := ⟨0.01, 0.12, 0.40, 0.72, 0.92⟩
      saturation := 1.35, bwWR := 0, bwWG := 0, bwWB := 0
      halation := ⟨8, 255, 160, 80, 0.15⟩ }
  else if id = "portra" then some
    { bw := false
      curveR := ⟨0.06, 0.24, 0.52, 0.78, 0.94⟩
      curveG := ⟨0.05, 0.22, 0.50, 0.76, 0.93⟩
      curveB := ⟨0.04, 0.19, 0.46, 0.73, 0.91⟩
      saturation := 0.88, bwWR := 0, bwWG := 0, bwWB := 0
      halation := ⟨10, 255, 190, 130, 0.12⟩ }
  else if id = "ektachrome" then some
    { bw := false
      curveR := ⟨0.02, 0.19, 0.50, 0.80, 0.96⟩
      curveG := ⟨0.02, 0.20, 0.52, 0.82, 0.97⟩
      curveB := ⟨0.03, 0.22, 0.53, 0.82, 0.97⟩
      saturation := 1.15, bwWR := 0, bwWG := 0, bwWB := 0
      halation := ⟨6, 240, 180, 110, 0.08⟩ }
  else none

/-! ### Curve LUT (worker.js 100-117) -/

/-- Control point y-value at index 0..4 of a stock curve. -/
def curvePtY (c : StockCurve) : ℕ → ℚ
  | 0 => c.black
  | 1 => c.shadows
  | 2 => c.midtone
  | 3 => c.highlights
  | _ => c.white

/-- Control point x-values 0, 0.25, 0.5, 0.75, 1. -/
def curvePtX : ℕ → ℚ
  | 0 => 0
  | 1 => 0.25
  | 2 => 0.5
  | 3 => 0.75
  | _ => 1

/-- Segment selection of buildCurveLUT (worker.js 109): the first j with
x ≤ pts[j+1].x, else the last segment.  The x here is always in [0, 1]. -/
def curveSeg (x : ℚ) : ℕ :=
  if x ≤ 0.25 then 0 else if x ≤ 0.5 then 1 else if x ≤ 0.75 then 2 else 3

/-- buildCurveLUT (worker.js 100-117); `e` is Math.pow(2, exposure),
pre-multiplied onto the index. -/
def buildCurveLUT (c : StockCurve) (e : ℚ) (i : ℕ) : ℕ :=
  let expVal := max 0 (min 255 ((i : ℚ) * e))
  let x := expVal / 255
  let s := curveSeg x
  let p0x := curvePtX s
  let p1x := curvePtX (s + 1)
  let p0y := curvePtY c s
  let p1y := curvePtY c (s + 1)
  let t0 := if p0x < p1x then (x - p0x) / (p1x - p0x) else 0
  let t := t0 * t0 * (3 - 2 * t0)
  (max 0 (min 255 (round ((p0y + t * (p1y - p0y)) * 255)))).toNat

/-! ### Separable box blur (worker.js 119-147)

The source maintains a running sum over a sliding window clamped to the
row (resp. column); the incremental updates keep sum and count equal to
the clamped-window sum and size, so each output cell is exactly the mean
of the input over that window.  We state that window mean directly. -/

/-- Mean of `f` over the indices lo..hi (inclusive). -/
def windowMean (f : ℕ → ℚ) (lo hi : ℕ) : ℚ :=
  (((List.range (hi + 1 - lo)).map (fun k => f (lo + k))).sum) / (hi + 1 - lo : ℕ)

/-- One horizontal pass of boxBlur2D. -/
def blurRow (data : ℕ → ℚ) (w : ℕ) (r : ℕ) : ℕ → ℚ :=
  fun j =>
    let y := j / w
    let x := j % w
    windowMean (fun bx => data (y * w + bx)) (x - r) (min (w - 1) (x + r))

/-- One vertical pass of boxBlur2D. -/
def blurCol (data : ℕ → ℚ) (w h : ℕ) (r : ℕ) : ℕ → ℚ :=
  fun j =>
    let y := j / w
    let x := j % w
    windowMean (fun by2 => data (by2 * w + x)) (y - r) (min (h - 1) (y + r))

/-- boxBlur2D (worker.js 119-147): two passes of horizontal-then-vertical
window means; identity when the rounded radius is below 1. -/
def boxBlur2D (data : ℕ → ℚ) (w h : ℕ) (radius : ℚ) : ℕ → ℚ :=
  let r := round radius
  if r < 1 then data
  else
    let rn := r.toNat
    let pass := fun d => blurCol (blurRow d w rn) w h rn
    pass (pass data)

/-! ### Film stock stage (worker.js 149-246) -/

/-- The halation phase (worker.js 167-186): brightness field from the
untouched buffer, box-blurred, added onto R, G, B when above the write
threshold; skipped when the effective strength is at most 0.005. -/
def filmHalation (stock : FilmStock) (halStrength : ℚ) (w h : ℕ)
    (d0 : ℕ → ℕ → Pix) : ℕ → ℕ → Pix :=
  if 0.005 < halStrength then
    let bright : ℕ → ℚ := fun j =>
      let p := d0 (j % w) (j / w)
      let lum := (LUM_R p.r + LUM_G p.g + LUM_B p.b) / 255
      if 0.65 < lum then (lum - 0.65) / (1 - 0.65) else 0
    let glow := boxBlur2D bright w h stock.halation.radius
    fun x y =>
      let p := d0 x y
      let g := glow (y * w + x) * halStrength
      if 0.001 < g then
        ⟨jsClampByte ((p.r : ℚ) + g * stock.halation.tintR),
         jsClampByte ((p.g : ℚ) + g * stock.halation.tintG),
         jsClampByte ((p.b : ℚ) + g * stock.halation.tintB), p.a⟩
      else p
  else d0

/-- The curve LUT application (worker.js 189-193). -/
def filmCurve (lutR lutG lutB : ℕ → ℕ) (d : ℕ → ℕ → Pix) : ℕ → ℕ → Pix :=
  fun x y =>
    let p := d x y
    ⟨lutR p.r, lutG p.g, lutB p.b, p.a⟩

/-- The B&W conversion (worker.js 195-204). -/
def filmBW (stock : FilmStock) (d : ℕ → ℕ → Pix) : ℕ → ℕ → Pix :=
  if stock.bw then fun x y =>
    let p := d x y
    let lum := stock.bwWR * p.r + stock.bwWG * p.g + stock.bwWB * p.b
    ⟨jsClampByte lum, jsClampByte lum, jsClampByte lum, p.a⟩
  else d

/-- The saturation phase (worker.js 206-215). -/
def filmSat (stock : FilmStock) (d : ℕ → ℕ → Pix) : ℕ → ℕ → Pix :=
  if ¬stock.bw ∧ stock.saturation ≠ 1 then fun x y =>
    let p := d x y
    let lum := LUM_R p.r + LUM_G p.g + LUM_B p.b
    ⟨jsClampByte (lum + ((p.r : ℚ) - lum) * stock.saturation),
     jsClampByte (lum + ((p.g : ℚ) - lum) * stock.saturation),
     jsClampByte (lum + ((p.b : ℚ) - lum) * stock.saturation), p.a⟩
  else d

/-- The fade phase (worker.js 217-242). -/
def filmFade (stock : FilmStock) (fade : ℚ) (d : ℕ → ℕ → Pix) : ℕ → ℕ → Pix :=
  if 0.01 < fade then
    let rScale := if stock.bw then 1 else 1 + fade * 0.14
    let gScale := if stock.bw then 1 else 1 + fade * 0.03
    let bScale := if stock.bw then 1 else 1 - fade * 0.08
    let contrast := 1 - fade * 0.22
    let lift := fade * 0.07
    let desat := fade * 0.35
    fun x y =>
      let p := d x y
      let fr := lift + ((p.r : ℚ) / 255) * rScale * contrast
      let fg := lift + ((p.g : ℚ) / 255) * gScale * contrast
      let fb := lift + ((p.b : ℚ) / 255) * bScale * contrast
      let lum := fr * 0.299 + fg * 0.587 + fb * 0.114
      ⟨jsClampByte ((fr + (lum - fr) * desat) * 255),
       jsClampByte ((fg + (lum - fg) * desat) * 255),
       jsClampByte ((fb + (lum - fb) * desat) * 255), p.a⟩
  else d

/-- applyFilmStock (worker.js 149-246).  `pow2Q` abstracts Math.pow with
base 2 (the exposure multiplier, worker.js 158).  An unrecognized (or
absent) stock id returns the canvas unchanged (worker.js 150-151); the
run is not aborted.  Each phase writes only the R, G, B bytes of the
ImageData; the alpha byte at i+3 is never assigned. -/
def applyFilmStock (pow2Q : ℚ → ℚ) (params : ModuleParams) (canvas : Raster) : Raster :=
  match (getStr params "stock").bind FILM_STOCKS with
  | none => canvas
  | some stock =>
    let w := canvas.w
    let h := canvas.h
    let e := pow2Q (numOr0 params "exposure")
    let halStrength := numOr0 params "halation" * stock.halation.strength
    let fade := numOr0 params "fade"
    let lutR := buildCurveLUT stock.curveR e
    let lutG := buildCurveLUT stock.curveG e
    let lutB := buildCurveLUT stock.curveB e
    ⟨w, h,
     filmFade stock fade (filmSat stock (filmBW stock
       (filmCurve lutR lutG lutB (filmHalation stock halStrength w h canvas.data))))⟩

/-! ### Velox stage (worker.js 248-271) -/

/-- The 256-entry sigmoid LUT of applyVelox (worker.js 257-262); `expQ`
abstracts Math.exp. -/
def veloxLUT (expQ : ℚ → ℚ) (t c : ℚ) (i : ℕ) : ℕ :=
  let l := 1 / (1 + expQ (-(((i : ℚ) / 255 - t) * c * 10)))
  (max 0 (min 255 (round (l * 255)))).toNat

/-- applyVelox (worker.js 248-271): luminance through the sigmoid LUT,
replicated to R, G, B; alpha untouched. -/
def applyVelox (expQ : ℚ → ℚ) (params : ModuleParams) (canvas : Raster) : Raster :=
  let t := numOr0 params "threshold"
  let c := numOr0 params "contrast"
  ⟨canvas.w, canvas.h, fun x y =>
    let p := canvas.data x y
    let v := veloxLUT expQ t c (lumIndex p.r p.g p.b).toNat
    ⟨v, v, v, p.a⟩⟩

/-! ### Grain stage (worker.js 273-292) -/

/-- applyGrain (worker.js 273-292).  `ent` is the Math.random stream;
the loop makes one call per pixel in row-major order, so pixel (x, y)
consumes entry y*w + x. -/
def applyGrain (ent : ℕ → ℚ) (params : ModuleParams) (canvas : Raster) : Raster :=
  let amt := numOr0 params "amount"
  let weighted := getStr params "weighted" = some "on"
  let noiseMax := 2 * amt * 255
  ⟨canvas.w, canvas.h, fun x y =>
    let p := canvas.data x y
    let lum := LUM_R p.r + LUM_G p.g + LUM_B p.b
    let weight := if weighted then (1 - lum / 255) * 1.5 else 1
    let noise := (ent (y * canvas.w + x) - 0.5) * noiseMax * weight
    ⟨jsClampByte ((p.r : ℚ) + noise), jsClampByte ((p.g : ℚ) + noise),
     jsClampByte ((p.b : ℚ) + noise), p.a⟩⟩

/-! ### Per-cell ink math of renderPlate (worker.js 445-450) -/

/-- Dot gain (worker.js 446): ink + dotGain * ink * (1 - ink) * 2, with
no clamp of its own. -/
def inkAfterDotGain (ink dotGain : ℚ) : ℚ := ink + dotGain * ink * (1 - ink) * 2

/-- Shadow fill (worker.js 447): applied when ink > 0.75 and
shadowFill > 0, on its argument as given. -/
def inkAfterShadow (ink shadowFill : ℚ) : ℚ :=
  if 0.75 < ink ∧ 0 < shadowFill then ink + (1 - ink) * shadowFill * ((ink - 0.75) / 0.25)
  else ink

/-- The ink value of worker.js 446-448: dot gain, then shadow fill on
the unclamped value, then a single clamp to [0, 1]. -/
def plateInkCode (ink dotGain shadowFill : ℚ) : ℚ :=
  clamp01 (inkAfterShadow (inkAfterDotGain ink dotGain) shadowFill)

/-- Modelled from the spec steps 4-5 of section 4.4: dot gain clamped to
[0, 1] first, shadow fill applied to the already-clamped value, clamped
again.  Kept for comparison with plateInkCode. -/
def plateInkSpec (ink dotGain shadowFill : ℚ) : ℚ :=
  clamp01 (inkAfterShadow (clamp01 (inkAfterDotGain ink dotGain)) shadowFill)

/-- The ink-skip multiply (worker.js 450). -/
def inkAfterSkip (ink skip : ℚ) : ℚ := clamp01 (ink * (1 - skip))

/-- The fan-out stretch budget of a plate (worker.js 426):
maxStretch = fanout * ((plateIndex - 1) / 3), plateIndex being the
1-based index the worker assigns in draw order (worker.js 659). -/
def maxStretch (fanout : ℚ) (plateIndex : ℕ) : ℚ :=
  fanout * (((plateIndex : ℚ) - 1) / 3)

/-! ### Channel setup and laydown sort (worker.js 605-633) -/

/-- Tags for the five getValue closures of the worker (cmykGet and the
two luminance-based lambdas, worker.js 605-619). -/
inductive VFun where
  | vc
  | vm
  | vy
  | vk
  | vlum
  | vinv
deriving DecidableEq, Repr

/-- Evaluation of a getValue closure on one sampled RGB triple
(worker.js 605-611, 615, 619). -/
def evalVFun : VFun → ℕ → ℕ → ℕ → ℚ
  | VFun.vc, r, g, b =>
    let R := (r : ℚ) / 255
    let G := (g : ℚ) / 255
    let B := (b : ℚ) / 255
    let K := 1 - max R (max G B)
    if 1 ≤ K then 0 else (1 - R - K) / (1 - K)
  | VFun.vm, r, g, b =>
    let R := (r : ℚ) / 255
    let G := (g : ℚ) / 255
    let B := (b : ℚ) / 255
    let K := 1 - max R (max G B)
    if 1 ≤ K then 0 else (1 - G - K) / (1 - K)
  | VFun.vy, r, g, b =>
    let R := (r : ℚ) / 255
    let G := (g : ℚ) / 255
    let B := (b : ℚ) / 255
    let K := 1 - max R (max G B)
    if 1 ≤ K then 0 else (1 - B - K) / (1 - K)
  | VFun.vk, r, g, b => 1 - max ((r : ℚ) / 255) (max ((g : ℚ) / 255) ((b : ℚ) / 255))
  | VFun.vlum, r, g, b => (LUM_R r + LUM_G g + LUM_B b) / 255
  | VFun.vinv, r, g, b => 1 - (LUM_R r + LUM_G g + LUM_B b) / 255

/-- One channel record of the worker's channels array (worker.js
613-627): id, ink color, screen angle, registration offset, and the
value function. -/
structure Channel where
  id : String
  color : Option String
  angleDeg : Option ℚ
  offsetX : Option ℚ
  offsetY : Option ℚ
  vfun : VFun
deriving DecidableEq

/-- The bw-mode channel list (worker.js 614-615). -/
def bwChannels (ht : ModuleParams) (mAng : ℚ) : List Channel :=
  [⟨"k", some ((getStr ht "duotoneColor1").getD "#000000"),
    (getNum ht "angleK").map (fun a => a + mAng), some 0, some 0, VFun.vinv⟩]

/-- The duotone-mode channel list (worker.js 616-620): plate 2 first,
then plate 1, in the source order of the array literal; no laydown sort
is applied in this mode. -/
def duotoneChannels (ht reg : ModuleParams) (mAng : ℚ) : List Channel :=
  [⟨"2", getStr ht "duotoneColor2", (getNum ht "angleC").map (fun a => a + mAng),
    getNum reg "cx", getNum reg "cy", VFun.vlum⟩,
   ⟨"1", getStr ht "duotoneColor1", (getNum ht "angleK").map (fun a => a + mAng),
    some 0, some 0, VFun.vinv⟩]

/-- The cmyk-mode channel array before the laydown sort (worker.js
622-627): c, m, y, k in that order. -/
def cmykChannels (ht reg : ModuleParams) (mAng : ℚ) : List Channel :=
  [⟨"c", some "#009fce", (getNum ht "angleC").map (fun a => a + mAng),
    getNum reg "cx", getNum reg "cy", VFun.vc⟩,
   ⟨"m", some "#d4006a", (getNum ht "angleM").map (fun a => a + mAng),
    getNum reg "mx", getNum reg "my", VFun.vm⟩,
   ⟨"y", some "#f5d800", (getNum ht "angleY").map (fun a => a + mAng),
    getNum reg "yx", getNum reg "yy", VFun.vy⟩,
   ⟨"k", some "#100c08", (getNum ht "angleK").map (fun a => a + mAng),
    some 0, some 0, VFun.vk⟩]

/-- Stable insertion into a list sorted by an integer key (the behavior
of Array.prototype.sort with the comparator order.indexOf(a.id) -
order.indexOf(b.id)). -/
def insertByKey (key : Channel → ℤ) (c : Channel) : List Channel → List Channel
  | [] => [c]
  | d :: ds => if key d < key c then d :: insertByKey key c ds else c :: d :: ds

/-- Stable sort by an integer key. -/
def sortByKey (key : Channel → ℤ) : List Channel → List Channel
  | [] => []
  | c :: rest => insertByKey key c (sortByKey key rest)

/-- The channel list the worker iterates (worker.js 613-633): bw and
duotone lists as laid out by their array literals; cmyk sorted by the
laydown order (worker.js 630-632). -/
def channelsFor (ht reg : ModuleParams) (laydown : String) : List Channel :=
  let mAng := (getNum ht "masterAngle").getD 0
  let mode := getStr ht "mode"
  if mode = some "bw" then bwChannels ht mAng
  else if mode = some "duotone" then duotoneChannels ht reg mAng
  else
    let order := splitDash laydown
    sortByKey (fun ch => jsIndexOf order ch.id) (cmykChannels ht reg mAng)

/-- The (channel id, plateIndex) assignment produced by the worker loop
(worker.js 642-660): plateIndex is index + 1 over the laydown-sorted
array. -/
def plateAssignments (ht reg : ModuleParams) (laydown : String) : List (String × ℕ) :=
  (channelsFor ht reg laydown).enum.map (fun pr => (pr.2.id, pr.1 + 1))

/-- Modelled from the spec sentence for duotone, "Rendering order =
laydown order applied to the two plates (unused inks are skipped)":
plate 1 stands at the laydown position of k (its angle source), plate 2
at the position of c.  Kept for comparison with duotoneChannels. -/
def duotoneClaimOrder (laydown : String) : List String :=
  (splitDash laydown).filterMap (fun s =>
    if s = "k" then some "1" else if s = "c" then some "2" else none)

/-! ### Plate rasterization and multiplicative compositing
(worker.js 411-485 and 635-663)

renderPlate creates an OffscreenCanvas(w, h), fills it white, and draws
dots and hickey defects through Canvas2D path rasterization.  The pixel
content of that vector rasterization (anti-aliased arc, diamond and
rectangle fills) is browser-internal, not scalar source code; it is
abstracted by the `paint` parameter, which receives the sample raster
and the full option record the worker hands to renderPlate (including
the embedded ink-skip map and hickey defect list).  The plate canvas
dimensions are those passed to the OffscreenCanvas constructor. -/

/-- The option record built at worker.js 648-660, plus the fields
renderPlate destructures at 418. -/
structure PlateOpts where
  color : Option String
  angleDeg : Option ℚ
  offsetX : Option ℚ
  offsetY : Option ℚ
  dotGain : Option ℚ
  shadowFill : Option ℚ
  dotShape : String
  cellSize : Option ℚ
  vfun : VFun
  inkSkipMap : Option (ℕ → ℕ → ℚ)
  hickeys : List Hickey
  fanout : Option ℚ
  feedDir : Option String
  slur : Option ℚ
  plateIndex : ℕ

/-- renderPlate (worker.js 411-485): an OffscreenCanvas(w, h) whose
painted content is abstracted by `paint`. -/
def renderPlateRaster (paint : Raster → PlateOpts → ℕ → ℕ → Pix)
    (srcData : Raster) (w h : ℕ) (opts : PlateOpts) : Raster :=
  ⟨w, h, paint srcData opts⟩

/-- Canvas drawImage under globalCompositeOperation multiply
(worker.js 640, 662): multiply blending inside source-over alpha
compositing, per the CSS compositing specification, with 8-bit storage
on write. -/
def multiplyComposite (bp sp : Pix) : Pix :=
  let ba := (bp.a : ℚ) / 255
  let sa := (sp.a : ℚ) / 255
  let ao := sa + ba * (1 - sa)
  let chan := fun (cb cs : ℕ) =>
    sa * (1 - ba) * cs + sa * ba * ((cb : ℚ) * cs / 255) + (1 - sa) * ba * cb
  if ao = 0 then ⟨0, 0, 0, 0⟩
  else
    ⟨jsClampByte (chan bp.r sp.r / ao), jsClampByte (chan bp.g sp.g / ao),
     jsClampByte (chan bp.b sp.b / ao), jsClampByte (ao * 255)⟩

/-- One ctx.drawImage(plate, 0, 0) of the composite loop: the plate has
the same dimensions as the output, so every output pixel is blended. -/
def drawImageMultiply (dst plate : Raster) : Raster :=
  ⟨dst.w, dst.h, fun x y => multiplyComposite (dst.data x y) (plate.data x y)⟩

/-- The output canvas after the paper fill (worker.js 635-639): a fresh
OffscreenCanvas(w, h) filled with ctx.fillStyle = ht.paperColor. -/
def paperBase (w h : ℕ) (paperColor : Option String) : Raster :=
  ⟨w, h, fun _ _ => cssFillPix paperColor⟩

/-! ### Ink bleed (worker.js 487-571) -/

/-- The oriented kernel of applyInkBleed (worker.js 510-526), as the
list of (dx, dy, weight) entries in loop order.  The bleed angle is
pi/2 for vertical feed; JS computes cos and sin of Math.PI/2 in doubles
(about 6.1e-17 and 1), here taken exactly as 0 and 1 — no claim below
depends on the kernel weights. -/
def bleedKernel (sqrtQ : ℚ → ℚ) (radius : ℤ) (dir : ℚ) (vertical : Bool) :
    List (ℤ × ℤ × ℚ) :=
  let cosA : ℚ := if vertical then 0 else 1
  let sinA : ℚ := if vertical then 1 else 0
  let stretch := max 0.1 (1 - dir)
  let rr := radius.toNat
  ((List.range (2 * rr + 1)).flatMap (fun iy =>
    (List.range (2 * rr + 1)).map (fun ix => ((ix : ℤ) - rr, (iy : ℤ) - rr)))).filterMap
    (fun (pr : ℤ × ℤ) =>
      let x := pr.1
      let y := pr.2
      let rx := (x : ℚ) * cosA - (y : ℚ) * sinA
      let ry := (x : ℚ) * sinA + (y : ℚ) * cosA
      let dist := sqrtQ (rx * rx + (ry / stretch) * (ry / stretch))
      if dist ≤ (radius : ℚ) then some (x, y, 1 - dist / (radius : ℚ)) else none)

/-- Clamp a sample coordinate to [0, bound-1] (worker.js 537-538). -/
def clampCoord (bound : ℕ) (v : ℤ) : ℕ := (max 0 (min ((bound : ℤ) - 1) v)).toNat

/-- applyInkBleed (worker.js 487-571).  Density and color fields are
convolved with the kernel, then each pixel is lerped toward the blurred
color by a density-driven blend; the alpha byte is never assigned.
Unparsable paper-color channels are NaN in JS; they are taken as 0
here, which only affects the R, G, B results, never alpha or size. -/
def applyInkBleed (sqrtQ : ℚ → ℚ) (params : ModuleParams) (paperColor : String)
    (feedDir : Option String) (img : Raster) : Raster :=
  let radius := round (numOr0 params "radius")
  if radius < 1 then img
  else
    let absorbency := numOr0 params "absorbency"
    let dir := numOr0 params "directionality"
    let w := img.w
    let h := img.h
    let pc := parseCSSColor paperColor
    let pcR := ((pc.1.getD 0 : ℕ) : ℚ)
    let pcG := ((pc.2.1.getD 0 : ℕ) : ℚ)
    let pcB := ((pc.2.2.getD 0 : ℕ) : ℚ)
    let density : ℕ → ℚ := fun j =>
      let p := img.data (j % w) (j / w)
      let dr := ((p.r : ℚ) - pcR) / 255
      let dg := ((p.g : ℚ) - pcG) / 255
      let db := ((p.b : ℚ) - pcB) / 255
      max 0 (min 1 (1 - (1 + dr * 0.299 + dg * 0.587 + db * 0.114)))
    let kernel := bleedKernel sqrtQ radius dir (feedDir = some "vertical")
    let kSum := (kernel.map (fun k => k.2.2)).sum
    let conv : (ℕ → ℚ) → ℕ → ℕ → ℚ := fun f x y =>
      (kernel.map (fun k =>
        let px := clampCoord w ((x : ℤ) + k.1)
        let py := clampCoord h ((y : ℤ) + k.2.1)
        f (py * w + px) * k.2.2)).sum / kSum
    let blurD := fun x y => conv density x y
    let blurR := fun x y => conv (fun j => ((img.data (j % w) (j / w)).r : ℚ)) x y
    let blurG := fun x y => conv (fun j => ((img.data (j % w) (j / w)).g : ℚ)) x y
    let blurB := fun x y => conv (fun j => ((img.data (j % w) (j / w)).b : ℚ)) x y
    ⟨w, h, fun x y =>
      let p := img.data x y
      let idx := (⌊min 1023 (max 0 (blurD x y * 1023))⌋).toNat
      let densityCurve := sqrtQ ((idx : ℚ) / 1023)
      let blend := max 0 (min 1 (densityCurve * absorbency * 1.5))
      ⟨jsClampByte ((p.r : ℚ) + (blurR x y - p.r) * blend),
       jsClampByte ((p.g : ℚ) + (blurG x y - p.g) * blend),
       jsClampByte ((p.b : ℚ) + (blurB x y - p.b) * blend), p.a⟩⟩

/-! ### Paper tooth stage (worker.js 669-700) -/

/-- The paper-tooth application (worker.js 677-698): highlight noise,
then pressure mottling reading the noise-updated bytes, with the
luminance taken from the pixel as it was at the start of its iteration.
The alpha byte is never assigned. -/
def applyPaper (ent : ℕ → ℚ) (pp : ModuleParams) (paperColor : String)
    (pressureOpt : Option ℚ) (feedDir : Option String) (img : Raster) : Raster :=
  let texture := numOr0 pp "texture"
  let fibers := numOr0 pp "fibers"
  let pressure := pressureOpt.getD 1
  let w := img.w
  let h := img.h
  let paperMap := buildPaperMap ent w h texture fibers feedDir
  let pc := parseCSSColor paperColor
  let pcR := ((pc.1.getD 0 : ℕ) : ℚ)
  let pcG := ((pc.2.1.getD 0 : ℕ) : ℚ)
  let pcB := ((pc.2.2.getD 0 : ℕ) : ℚ)
  ⟨w, h, fun x y =>
    let p := img.data x y
    let lum := (LUM_R p.r + LUM_G p.g + LUM_B p.b) / 255
    let pVal := paperMap (y * w + x)
    let p1 :=
      if 0.4 < lum then
        let hw := max 0 (min 1 ((lum - 0.4) / 0.6))
        let noise := pVal * hw * 150
        (⟨jsClampByte ((p.r : ℚ) + noise), jsClampByte ((p.g : ℚ) + noise),
          jsClampByte ((p.b : ℚ) + noise), p.a⟩ : Pix)
      else p
    if pressure < 1 ∧ lum < 0.6 ∧ 0 < pVal then
      let sw := max 0 (min 1 ((0.6 - lum) / 0.6))
      let safeTexture := max 0.001 texture
      let m := max 0 (min 1 ((1 - pressure) * (pVal / safeTexture) * sw * 2))
      ⟨jsClampByte ((p1.r : ℚ) + (pcR - p1.r) * m),
       jsClampByte ((p1.g : ℚ) + (pcG - p1.g) * m),
       jsClampByte ((p1.b : ℚ) + (pcB - p1.b) * m), p1.a⟩
    else p1⟩

/-! ### Resample (worker.js 70-98) -/

/-- copyCanvas (worker.js 70-74): same dimensions, same pixels (an
unscaled aligned drawImage is byte-exact; under partial alpha the
canvas premultiplication may quantize RGB, which no claim below
touches). -/
def copyCanvas (src : Raster) : Raster := ⟨src.w, src.h, src.data⟩

/-- getPreviewCanvas (worker.js 76-87); the smoothed scaling content is
abstracted by `resample`. -/
def getPreviewCanvas (resample : Raster → ℕ → ℕ → ℕ → ℕ → Pix)
    (src : Raster) (maxPx : ℕ) : Raster :=
  let maxDim := max src.w src.h
  if maxDim ≤ maxPx then copyCanvas src
  else
    let scale : ℚ := (maxPx : ℚ) / (maxDim : ℚ)
    let w2 := (round ((src.w : ℚ) * scale)).toNat
    let h2 := (round ((src.h : ℚ) * scale)).toNat
    ⟨w2, h2, resample src w2 h2⟩

/-- applyUpscale (worker.js 89-98). -/
def applyUpscale (resample : Raster → ℕ → ℕ → ℕ → ℕ → Pix)
    (c : Raster) (scale : ℕ) : Raster :=
  if scale ≤ 1 then c
  else ⟨c.w * scale, c.h * scale, resample c (c.w * scale) (c.h * scale)⟩

/-! ### The message handler (worker.js 573-704) -/

/-- The browser primitives the worker leans on: Math.sqrt, Math.exp,
Math.pow(2, -), Canvas2D vector rasterization of a plate, smoothed
drawImage scaling, and the two Math.random streams consumed by grain
and the paper map.  All are fixed deterministic functions of a given
browser session except the two entropy streams. -/
structure BrowserEnv where
  sqrtQ : ℚ → ℚ
  expQ : ℚ → ℚ
  pow2Q : ℚ → ℚ
  paint : Raster → PlateOpts → ℕ → ℕ → Pix
  resample : Raster → ℕ → ℕ → ℕ → ℕ → Pix
  grainEnt : ℕ → ℚ
  paperEnt : ℕ → ℚ

/-- The request message (worker.js 574). -/
structure Req where
  bitmap : Option Raster
  activeModulesList : List String
  moduleParams : Params
  forExport : Bool
  previewMaxPx : ℕ
  upscale : ℕ

/-- The outcomes of the nine active-set membership tests the handler
performs (worker.js 588-603, 644, 667, 669).  halftone and press are
never tested. -/
structure ActiveFlags where
  filmstock : Bool
  velox : Bool
  grain : Bool
  dotgain : Bool
  registration : Bool
  hickeys : Bool
  inkskip : Bool
  inkbleed : Bool
  paper : Bool
deriving DecidableEq

/-- new Set(activeModulesList) followed by the nine has() calls. -/
def activeFlags (l : List String) : ActiveFlags :=
  ⟨l.contains "filmstock", l.contains "velox", l.contains "grain",
   l.contains "dotgain", l.contains "registration", l.contains "hickeys",
   l.contains "inkskip", l.contains "inkbleed", l.contains "paper"⟩

/-- The dotgain fallback object (worker.js 601). -/
def dgDefault : ModuleParams := [("amount", PVal.num 0), ("shadow", PVal.num 0)]

/-- The registration fallback object (worker.js 602). -/
def regDefault : ModuleParams :=
  [("cx", PVal.num 0), ("cy", PVal.num 0), ("mx", PVal.num 0), ("my", PVal.num 0),
   ("yx", PVal.num 0), ("yy", PVal.num 0), ("fanout", PVal.num 0)]

/-- feedDir = P.press ? P.press.feed : (worker.js 577); none models a
press entry present without a feed string. -/
def resolveFeed (press : Option ModuleParams) : Option String :=
  match press with
  | some pr => getStr pr "feed"
  | none => some "vertical"

/-- slur = P.press ? P.press.slur : 0 (worker.js 658). -/
def resolveSlur (press : Option ModuleParams) : Option ℚ :=
  match press with
  | some pr => getNum pr "slur"
  | none => some 0

/-- pressure = P.press ? P.press.pressure : 1.0 (worker.js 671). -/
def resolvePressure (press : Option ModuleParams) : Option ℚ :=
  match press with
  | some pr => getNum pr "pressure"
  | none => some 1

/-- Dereference a module entry of the bundle; a missing entry is a
TypeError the moment one of its properties is read, aborting the run
with no result. -/
def fetchM (P : Params) (id : String) : Except String ModuleParams :=
  match getModule P id with
  | some m => Except.ok m
  | none => Except.error ("TypeError: moduleParams entry missing: " ++ id)

/-- Fetch a module entry only when its stage is active. -/
def fetchIf (b : Bool) (P : Params) (id : String) : Except String (Option ModuleParams) :=
  if b then (fetchM P id).map some else Except.ok none

/-- laydown = P.press ? P.press.laydown : the default string, read and
split only in cmyk mode (worker.js 630-631); a press entry without a
laydown string makes the split throw. -/
def resolveLaydown (press : Option ModuleParams) (mode : Option String) :
    Except String String :=
  if mode = some "bw" ∨ mode = some "duotone" then Except.ok "k-c-m-y"
  else
    match press with
    | none => Except.ok "k-c-m-y"
    | some pr =>
      match getStr pr "laydown" with
      | some s => Except.ok s
      | none => Except.error "TypeError: laydown has no split method"

/-- parseCSSColor(ht.paperColor) throws when ink bleed or paper tooth
runs and paperColor is not a string (worker.js 499, 675). -/
def requirePaperColor (need : Bool) (pc : Option String) : Except String Unit :=
  if need = true ∧ pc = none then
    Except.error "TypeError: paperColor has no replace method"
  else Except.ok ()

/-- Everything the handler resolves from the message before and between
the pixel stages. -/
structure RunCfg where
  src : Raster
  forExport : Bool
  previewMaxPx : ℕ
  upscale : ℕ
  feedDir : Option String
  ht : ModuleParams
  dg : ModuleParams
  reg : ModuleParams
  laydown : String
  slur : Option ℚ
  pressure : Option ℚ
  filmstockP : Option ModuleParams
  veloxP : Option ModuleParams
  grainP : Option ModuleParams
  hickeysP : Option ModuleParams
  inkskipP : Option ModuleParams
  inkbleedP : Option ModuleParams
  paperP : Option ModuleParams
  paperColor : Option String

/-- Parameter resolution of the handler (worker.js 574-603, 630, 638,
658, 667-671).  Every property dereference of a missing object in the
handler throws, ending the run with no reply; those failures are
hoisted here, which leaves the Except outcome of the run unchanged.
The laydown string is only read (and split) in cmyk mode; paperColor is
only dereferenced by parseCSSColor when ink bleed or paper tooth runs. -/
def resolveRunCore (fl : ActiveFlags) (P : Params) (bitmap : Option Raster)
    (forExport : Bool) (previewMaxPx upscale : ℕ) : Except String RunCfg :=
  match bitmap with
  | none => Except.error "TypeError: bitmap is null"
  | some bmp =>
    let press := getModule P "press"
    Except.bind (fetchIf fl.filmstock P "filmstock") fun fsP =>
    Except.bind (fetchIf fl.velox P "velox") fun vxP =>
    Except.bind (fetchIf fl.grain P "grain") fun grP =>
    Except.bind (fetchM P "halftone") fun ht =>
    Except.bind (if fl.dotgain then fetchM P "dotgain" else Except.ok dgDefault) fun dg =>
    Except.bind (if fl.registration then fetchM P "registration" else Except.ok regDefault)
      fun reg =>
    let hkP := if fl.hickeys then getModule P "hickeys" else none
    Except.bind (fetchIf fl.inkskip P "inkskip") fun isP =>
    Except.bind (fetchIf fl.inkbleed P "inkbleed") fun ibP =>
    Except.bind (fetchIf fl.paper P "paper") fun ppP =>
    Except.bind (resolveLaydown press (getStr ht "mode")) fun laydown =>
    let pcStr := getStr ht "paperColor"
    Except.bind (requirePaperColor (fl.inkbleed || fl.paper) pcStr) fun _ =>
    Except.ok ⟨bmp, forExport, previewMaxPx, upscale, resolveFeed press, ht, dg, reg,
      laydown, resolveSlur press, resolvePressure press, fsP, vxP, grP, hkP, isP,
      ibP, ppP, pcStr⟩

/-- Resolution from the raw request. -/
def resolveRun (req : Req) : Except String RunCfg :=
  resolveRunCore (activeFlags req.activeModulesList) req.moduleParams req.bitmap
    req.forExport req.previewMaxPx req.upscale

/-- The pixel pipeline of the handler (worker.js 579-700), applied to a
resolved configuration: resample, the three pre-screen stages, per-plate
halftone rasterization composited multiplicatively over the paper fill,
ink bleed, paper tooth. -/
def renderCore (env : BrowserEnv) (cfg : RunCfg) : Raster :=
  let canvas0 := if cfg.forExport then cfg.src
    else getPreviewCanvas env.resample cfg.src cfg.previewMaxPx
  let canvas1 := if cfg.forExport ∧ 1 < cfg.upscale then
    applyUpscale env.resample canvas0 cfg.upscale else canvas0
  let canvas2 := match cfg.filmstockP with
    | some fp => applyFilmStock env.pow2Q fp canvas1
    | none => canvas1
  let canvas3 := match cfg.veloxP with
    | some vp => applyVelox env.expQ vp canvas2
    | none => canvas2
  let canvas4 := match cfg.grainP with
    | some gp => applyGrain env.grainEnt gp canvas3
    | none => canvas3
  let w := canvas4.w
  let h := canvas4.h
  let srcData := canvas4
  let channels := channelsFor cfg.ht cfg.reg cfg.laydown
  let plates := channels.enum.map (fun pr =>
    let i := pr.1
    let ch := pr.2
    let iskip := cfg.inkskipP.map (fun ip =>
      buildInkSkipMap env.sqrtQ w h (numOr0 ip "intensity") (numOr0 ip "scale")
        (i + 1) cfg.feedDir)
    renderPlateRaster env.paint srcData w h
      { color := ch.color
        angleDeg := ch.angleDeg
        offsetX := ch.offsetX
        offsetY := ch.offsetY
        dotGain := getNum cfg.dg "amount"
        shadowFill := getNum cfg.dg "shadow"
        dotShape := (getStr cfg.ht "dotShape").getD "circle"
        cellSize := getNum cfg.ht "cellSize"
        vfun := ch.vfun
        inkSkipMap := iskip
        hickeys := match cfg.hickeysP with
          | some hp => applyPlateHickeys w h hp ch.color (i + 1)
          | none => []
        fanout := getNum cfg.reg "fanout"
        feedDir := cfg.feedDir
        slur := cfg.slur
        plateIndex := i + 1 })
  let out0 := plates.foldl drawImageMultiply (paperBase w h cfg.paperColor)
  let out1 := match cfg.inkbleedP with
    | some ib => applyInkBleed env.sqrtQ ib (cfg.paperColor.getD "") cfg.feedDir out0
    | none => out0
  let out2 := match cfg.paperP with
    | some pp => applyPaper env.paperEnt pp (cfg.paperColor.getD "") cfg.pressure
        cfg.feedDir out1
    | none => out1
  out2

/-- The full run: resolve the message, then run the pixel pipeline. -/
def render (env : BrowserEnv) (req : Req) : Except String Raster :=
  (resolveRun req).map (renderCore env)

/-! ### Resolvability of a request, and concrete fixtures -/

/-- The nine module ids whose active-set membership the handler tests;
any other id in the active set is never consulted. -/
def knownFlagIds : List String :=
  ["filmstock", "velox", "grain", "dotgain", "registration", "hickeys",
   "inkskip", "inkbleed", "paper"]

/-- Every module entry the run will dereference is present (and the
paper color is a string when a stage will parse it): under these
conditions no parameter access throws. -/
def ActiveResolvable (fl : ActiveFlags) (P : Params) (ht : ModuleParams) : Prop :=
  (fl.filmstock = true → (getModule P "filmstock").isSome = true) ∧
  (fl.velox = true → (getModule P "velox").isSome = true) ∧
  (fl.grain = true → (getModule P "grain").isSome = true) ∧
  (fl.dotgain = true → (getModule P "dotgain").isSome = true) ∧
  (fl.registration = true → (getModule P "registration").isSome = true) ∧
  (fl.inkskip = true → (getModule P "inkskip").isSome = true) ∧
  (fl.inkbleed = true → (getModule P "inkbleed").isSome = true) ∧
  (fl.paper = true → (getModule P "paper").isSome = true) ∧
  ((fl.inkbleed = true ∨ fl.paper = true) → (getStr ht "paperColor").isSome = true)

/-- A concrete browser session for evaluating the model on small inputs:
square root and the transcendentals are taken as simple total stand-ins
(their values never matter to the properties evaluated on these
fixtures), the plate painter paints solid white, entropy is zero. -/
def envC : BrowserEnv :=
  ⟨fun q => q, fun _ => 1, fun _ => 1, fun _ _ _ _ => ⟨255, 255, 255, 255⟩,
   fun r _ _ x y => r.data x y, fun _ => 0, fun _ => 0⟩

/-- A 1-by-1 source whose only pixel is fully transparent black. -/
def bmp1 : Raster := ⟨1, 1, fun _ _ => ⟨0, 0, 0, 0⟩⟩

/-- The documented halftone defaults (data.js MODULE_DEFS.halftone). -/
def htDefault : ModuleParams :=
  [("mode", PVal.str "cmyk"), ("cellSize", PVal.num 10),
   ("dotShape", PVal.str "circle"), ("paperColor", PVal.str "#f0ead8"),
   ("masterAngle", PVal.num 0), ("angleK", PVal.num 45), ("angleC", PVal.num 15),
   ("angleM", PVal.num 75), ("angleY", PVal.num 90),
   ("duotoneColor1", PVal.str "#1a1008"), ("duotoneColor2", PVal.str "#d4890a")]

/-- A duotone halftone configuration (the RISOGRAPH preset colors). -/
def htDuo : ModuleParams :=
  [("mode", PVal.str "duotone"), ("cellSize", PVal.num 11),
   ("dotShape", PVal.str "circle"), ("paperColor", PVal.str "#f7f0e6"),
   ("masterAngle", PVal.num 0), ("angleK", PVal.num 55), ("angleC", PVal.num 80),
   ("duotoneColor1", PVal.str "#1e3a8a"), ("duotoneColor2", PVal.str "#e8402a")]

/-- The documented press defaults (data.js MODULE_DEFS.press). -/
def pressDefault : ModuleParams :=
  [("feed", PVal.str "vertical"), ("laydown", PVal.str "k-c-m-y"),
   ("pressure", PVal.num 1), ("slur", PVal.num 0)]

/-- The documented velox defaults. -/
def vxDefault : ModuleParams :=
  [("threshold", PVal.num 0.5), ("contrast", PVal.num 1.5)]

/-- A filmstock entry whose stock id is outside the documented range. -/
def fsFoo : ModuleParams :=
  [("stock", PVal.str "foo"), ("exposure", PVal.num 0),
   ("halation", PVal.num 0.5), ("fade", PVal.num 0)]

/-- A request whose bundle has no halftone (and no press) entry. -/
def req2 : Req := ⟨some bmp1, [], [], true, 900, 1⟩

/-- A minimal valid export request: empty active set, halftone defaults,
press absent. -/
def req3 : Req := ⟨some bmp1, [], [("halftone", htDefault)], true, 900, 1⟩

/-- An export request with an out-of-range stock id. -/
def req5 : Req :=
  ⟨some bmp1, ["filmstock"],
   [("filmstock", fsFoo), ("halftone", htDefault), ("press", pressDefault)],
   true, 900, 1⟩

/-- A request whose source is null. -/
def reqNull : Req := ⟨none, [], [("halftone", htDefault)], true, 900, 1⟩

/-- A preview request with an active velox stage and no press entry. -/
def reqC2 : Req :=
  ⟨some bmp1, ["velox"], [("halftone", htDefault), ("velox", vxDefault)], false, 900, 1⟩

/-- The raster produced by the minimal valid export request. -/
def rW : Raster :=
  match render envC req3 with
  | Except.ok r => r
  | Except.error _ => ⟨0, 0, fun _ _ => ⟨0, 0, 0, 0⟩⟩

/-- The raster produced by the out-of-range-stock request. -/
def rFoo : Raster :=
  match render envC req5 with
  | Except.ok r => r
  | Except.error _ => ⟨0, 0, fun _ _ => ⟨0, 0, 0, 0⟩⟩

/-! ## Theorems -/

/-! ### Helper lemmas -/

theorem clamp01_nonneg (q : ℚ) : 0 ≤ clamp01 q := le_max_left 0 _

theorem clamp01_le_one (q : ℚ) : clamp01 q ≤ 1 := by
  unfold clamp01
  rcases le_total 0 (min 1 q) with h | h
  · rw [max_eq_right h]
    exact min_le_left 1 q
  · rw [max_eq_left h]
    norm_num

theorem clamp01_eq_self (q : ℚ) (h0 : 0 ≤ q) (h1 : q ≤ 1) : clamp01 q = q := by
  unfold clamp01
  rw [min_eq_right h1, max_eq_right h0]

theorem exceptMapOk {ε α β : Type} (f : α → β) (e : Except ε α) (b : β)
    (h : e.map f = Except.ok b) : ∃ a, e = Except.ok a ∧ b = f a := by
  cases e with
  | error err => simp [Except.map] at h
  | ok a =>
    refine ⟨a, rfl, ?_⟩
    simpa [Except.map] using h.symm

/-! ### Alpha behavior of the pipeline -/

theorem cssFillPix_a (s : Option String) : (cssFillPix s).a = 255 := by
  cases s with
  | none => rfl
  | some str =>
    simp only [cssFillPix]
    split
    · rcases parseCSSColor str with ⟨o1, o2, o3⟩
      cases o1 <;> cases o2 <;> cases o3 <;> rfl
    · rfl

theorem paperBase_a (w h : ℕ) (pc : Option String) (x y : ℕ) :
    ((paperBase w h pc).data x y).a = 255 :=
  cssFillPix_a pc

theorem jsClampByte_255 : jsClampByte 255 = 255 := by
  have h1 : max (0 : ℚ) (min 255 255) = 255 := by
    rw [min_self, max_eq_right (by norm_num)]
  unfold jsClampByte roundHalfEven
  rw [h1]
  norm_num
  decide

theorem multiplyComposite_a (bp sp : Pix) (h : bp.a = 255) :
    (multiplyComposite bp sp).a = 255 := by
  simp only [multiplyComposite]
  rw [h]
  have h255 : ((255 : ℕ) : ℚ) / 255 = 1 := by norm_num
  rw [h255]
  have hao : (sp.a : ℚ) / 255 + 1 * (1 - (sp.a : ℚ) / 255) = 1 := by ring
  rw [hao, if_neg (by norm_num), one_mul, jsClampByte_255]

theorem foldl_multiply_a (l : List Raster) (acc : Raster)
    (hacc : ∀ x y, ((acc.data x y)).a = 255) :
    ∀ x y, ((l.foldl drawImageMultiply acc).data x y).a = 255 := by
  induction l generalizing acc with
  | nil => simpa using hacc
  | cons p t ih =>
    intro x y
    exact ih (drawImageMultiply acc p)
      (fun x y => multiplyComposite_a _ _ (hacc x y)) x y

theorem applyInkBleed_a (sq : ℚ → ℚ) (p : ModuleParams) (pc : String)
    (fd : Option String) (img : Raster) (x y : ℕ) :
    ((applyInkBleed sq p pc fd img).data x y).a = (img.data x y).a := by
  unfold applyInkBleed
  dsimp only
  split
  · rfl
  · rfl

theorem applyPaper_a (ent : ℕ → ℚ) (pp : ModuleParams) (pc : String)
    (pr : Option ℚ) (fd : Option String) (img : Raster) (x y : ℕ) :
    ((applyPaper ent pp pc pr fd img).data x y).a = (img.data x y).a := by
  unfold applyPaper
  dsimp only
  split
  · split <;> rfl
  · split <;> rfl

theorem filmHalation_a (stock : FilmStock) (hs : ℚ) (w h : ℕ)
    (d : ℕ → ℕ → Pix) (x y : ℕ) :
    (filmHalation stock hs w h d x y).a = (d x y).a := by
  unfold filmHalation
  split
  · dsimp only
    split <;> rfl
  · rfl

theorem filmCurve_a (lr lg lb : ℕ → ℕ) (d : ℕ → ℕ → Pix) (x y : ℕ) :
    (filmCurve lr lg lb d x y).a = (d x y).a := rfl

theorem filmBW_a (stock : FilmStock) (d : ℕ → ℕ → Pix) (x y : ℕ) :
    (filmBW stock d x y).a = (d x y).a := by
  unfold filmBW
  split <;> rfl

theorem filmSat_a (stock : FilmStock) (d : ℕ → ℕ → Pix) (x y : ℕ) :
    (filmSat stock d x y).a = (d x y).a := by
  unfold filmSat
  split <;> rfl

theorem filmFade_a (stock : FilmStock) (fade : ℚ) (d : ℕ → ℕ → Pix) (x y : ℕ) :
    (filmFade stock fade d x y).a = (d x y).a := by
  unfold filmFade
  split <;> rfl

theorem applyFilmStock_a (pw : ℚ → ℚ) (fp : ModuleParams) (c : Raster) (x y : ℕ) :
    ((applyFilmStock pw fp c).data x y).a = (c.data x y).a := by
  unfold applyFilmStock
  split
  · rfl
  · dsimp only
    rw [filmFade_a, filmSat_a, filmBW_a, filmCurve_a, filmHalation_a]

theorem applyVelox_a (ex : ℚ → ℚ) (vp : ModuleParams) (c : Raster) (x y : ℕ) :
    ((applyVelox ex vp c).data x y).a = (c.data x y).a := rfl

theorem applyGrain_a (ent : ℕ → ℚ) (gp : ModuleParams) (c : Raster) (x y : ℕ) :
    ((applyGrain ent gp c).data x y).a = (c.data x y).a := rfl

/-- Every raster the pixel pipeline produces is fully opaque: the
composite starts from an opaque paper fill, multiply compositing onto
an opaque backdrop stays opaque, and ink bleed and paper tooth never
write the alpha byte. -/
theorem renderCore_a (env : BrowserEnv) (cfg : RunCfg) (x y : ℕ) :
    ((renderCore env cfg).data x y).a = 255 := by
  unfold renderCore
  dsimp only
  have hbase : ∀ (plates : List Raster) (w h : ℕ) (pc : Option String) (x y : ℕ),
      ((plates.foldl drawImageMultiply (paperBase w h pc)).data x y).a = 255 :=
    fun plates w h pc => foldl_multiply_a plates _ (paperBase_a w h pc)
  rcases cfg.paperP with _ | pp <;> rcases cfg.inkbleedP with _ | ib <;>
    simp only [applyPaper_a, applyInkBleed_a] <;> apply hbase

/-- Every successful run replies with a fully opaque raster. -/
theorem render_ok_a (env : BrowserEnv) (req : Req) (r : Raster)
    (h : render env req = Except.ok r) (x y : ℕ) : (r.data x y).a = 255 := by
  obtain ⟨cfg, _, hr⟩ := exceptMapOk (renderCore env) (resolveRun req) r h
  rw [hr]
  exact renderCore_a env cfg x y

/-! ### C3: alpha is replaced, not preserved -/

/-- C3 counterexample: the minimal valid run on a 1-by-1 source whose
pixel has alpha 0 succeeds, and the output pixel has alpha 255 — the
paper fill and multiply compositing make the output opaque, so
A_out = A_in fails at (0, 0). -/
theorem C3_counterexample :
    render envC req3 = Except.ok rW ∧ (rW.data 0 0).a = 255 ∧
    (bmp1.data 0 0).a = 0 ∧ (rW.data 0 0).a ≠ (bmp1.data 0 0).a := by
  have hok : render envC req3 = Except.ok rW := rfl
  have hA := render_ok_a envC req3 rW hok 0 0
  refine ⟨hok, hA, rfl, ?_⟩
  rw [hA]
  decide

/-- C3 amended: the stages before and after the halftone composite
carry alpha unchanged, but the composite replaces it — the output of
every successful render is fully opaque (alpha 255 at every pixel), so
A_out = A_in holds exactly where the source is opaque. -/
theorem C3_amended (env : BrowserEnv) (req : Req) (r : Raster)
    (h : render env req = Except.ok r) (x y : ℕ) :
    (r.data x y).a = 255 ∧
    (∀ src : Raster, req.bitmap = some src → (src.data x y).a = 255 →
      (r.data x y).a = (src.data x y).a) := by
  have hA := render_ok_a env req r h x y
  exact ⟨hA, fun src _ hsrc => by rw [hA, hsrc]⟩

/-- C3 amended witness on the concrete minimal run. -/
theorem C3_amended_witness :
    (rW.data 0 0).a = 255 ∧
    (∀ src : Raster, req3.bitmap = some src → (src.data 0 0).a = 255 →
      (rW.data 0 0).a = (src.data 0 0).a) :=
  C3_amended envC req3 rW rfl 0 0

/-! ### C5: invalid input is not rejected -/

/-- C5 counterexample: a run whose stock id foo is outside the
documented range is not rejected — it completes with the composite
output, which differs from the unchanged source already in its alpha
channel at (0, 0). -/
theorem C5_counterexample :
    getStr fsFoo "stock" = some "foo" ∧ FILM_STOCKS "foo" = none ∧
    render envC req5 = Except.ok rFoo ∧ (rFoo.data 0 0).a = 255 ∧
    (bmp1.data 0 0).a = 0 ∧ (rFoo.data 0 0).a ≠ (bmp1.data 0 0).a := by
  have hok : render envC req5 = Except.ok rFoo := rfl
  have hA := render_ok_a envC req5 rFoo hok 0 0
  refine ⟨rfl, rfl, hok, hA, rfl, ?_⟩
  rw [hA]
  decide

/-- C5 amended: a null source throws (the run fails with no result,
the source is not returned), and an out-of-range stock id is not a
rejection either — the film-stock stage just passes its canvas through
unchanged and the pipeline continues. -/
theorem C5_amended (env : BrowserEnv) (req : Req) (fp : ModuleParams) (c : Raster)
    (h1 : req.bitmap = none) (h2 : (getStr fp "stock").bind FILM_STOCKS = none) :
    (render env req).isOk = false ∧ applyFilmStock env.pow2Q fp c = c := by
  constructor
  · unfold render resolveRun resolveRunCore
    rw [h1]
    rfl
  · unfold applyFilmStock
    rw [h2]

/-- C5 amended witness: the concrete null-source request and the foo
stock entry. -/
theorem C5_amended_witness :
    (render envC reqNull).isOk = false ∧
    applyFilmStock envC.pow2Q fsFoo bmp1 = bmp1 :=
  C5_amended envC reqNull fsFoo bmp1 rfl rfl

/-! ### C6: dot gain and shadow fill -/

/-- C6 counterexample: at sampled ink 3/4 with dot-gain amount 1 and
shadow fill 1, the worker (which clamps only after shadow fill,
worker.js 446-448) produces 15/16, while the claimed
clamp-before-shadow-fill pipeline produces 1; the unclamped dot-gain
value 9/8 is what the shadow-fill test actually sees. -/
theorem C6_counterexample :
    plateInkCode (3/4) 1 1 = 15/16 ∧ plateInkSpec (3/4) 1 1 = 1 ∧
    plateInkCode (3/4) 1 1 ≠ plateInkSpec (3/4) 1 1 ∧
    inkAfterDotGain (3/4) 1 = 9/8 := by
  have hcode : plateInkCode (3/4) 1 1 = 15/16 := by
    simp only [plateInkCode, inkAfterDotGain, inkAfterShadow, clamp01]
    norm_num
  have hspec : plateInkSpec (3/4) 1 1 = 1 := by
    simp only [plateInkSpec, inkAfterDotGain, inkAfterShadow, clamp01]
    norm_num
  refine ⟨hcode, hspec, ?_, by norm_num [inkAfterDotGain]⟩
  rw [hcode, hspec]
  norm_num

/-- C6 amended: the dot-gain value ink + dgA·ink·(1−ink)·2 is not
clamped before the shadow-fill test; shadow fill operates on the
unclamped value and a single clamp to [0,1] follows both steps.  The
spec formulation agrees with the code exactly when the unclamped
dot-gain value does not exceed 1, and the final ink is always in
[0, 1]. -/
theorem C6_amended (ink dgA dgS : ℚ) (h0 : 0 ≤ ink) (h1 : ink ≤ 1) (h2 : 0 ≤ dgA) :
    (inkAfterDotGain ink dgA ≤ 1 →
      plateInkCode ink dgA dgS = plateInkSpec ink dgA dgS) ∧
    0 ≤ plateInkCode ink dgA dgS ∧ plateInkCode ink dgA dgS ≤ 1 := by
  refine ⟨fun hle => ?_, clamp01_nonneg _, clamp01_le_one _⟩
  have hg0 : 0 ≤ inkAfterDotGain ink dgA := by
    unfold inkAfterDotGain
    have hprod : 0 ≤ dgA * ink * (1 - ink) * 2 :=
      mul_nonneg (mul_nonneg (mul_nonneg h2 h0) (sub_nonneg.mpr h1))
        (by norm_num)
    linarith
  unfold plateInkCode plateInkSpec
  rw [clamp01_eq_self _ hg0 hle]

/-- C6 amended witness at ink 1/2, dgA 1/2, dgS 3/10. -/
theorem C6_amended_witness :
    (inkAfterDotGain (1/2) (1/2) ≤ 1 →
      plateInkCode (1/2) (1/2) (3/10) = plateInkSpec (1/2) (1/2) (3/10)) ∧
    0 ≤ plateInkCode (1/2) (1/2) (3/10) ∧ plateInkCode (1/2) (1/2) (3/10) ≤ 1 :=
  C6_amended (1/2) (1/2) (3/10) (by norm_num) (by norm_num) (by norm_num)

/-! ### Resolution machinery -/

theorem exceptBindOk {ε α β : Type} {e : Except ε α} {f : α → Except ε β} {b : β}
    (h : Except.bind e f = Except.ok b) : ∃ a, e = Except.ok a ∧ f a = Except.ok b := by
  cases e with
  | error err => exact absurd h (by simp [Except.bind])
  | ok a => exact ⟨a, rfl, h⟩

theorem isOk_bind {ε α β : Type} {e : Except ε α} {f : α → Except ε β} (a : α)
    (he : e = Except.ok a) (hf : (f a).isOk = true) :
    (Except.bind e f).isOk = true := by
  rw [he]
  exact hf

theorem isOk_map {ε α β : Type} (f : α → β) (e : Except ε α) (h : e.isOk = true) :
    (e.map f).isOk = true := by
  cases e with
  | error err => simp [Except.isOk, Except.toBool] at h
  | ok a => rfl

theorem fetchIf_ok (b : Bool) (P : Params) (id : String)
    (h : b = true → (getModule P id).isSome = true) :
    ∃ o, fetchIf b P id = Except.ok o := by
  cases b with
  | false => exact ⟨none, by simp [fetchIf]⟩
  | true =>
    obtain ⟨m, hm⟩ := Option.isSome_iff_exists.mp (h rfl)
    exact ⟨some m, by simp [fetchIf, fetchM, hm, Except.map]⟩

theorem fetchDefault_ok (b : Bool) (P : Params) (id : String) (dflt : ModuleParams)
    (h : b = true → (getModule P id).isSome = true) :
    ∃ d, (if b then fetchM P id else Except.ok dflt) = Except.ok d := by
  cases b with
  | false => exact ⟨dflt, by simp⟩
  | true =>
    obtain ⟨m, hm⟩ := Option.isSome_iff_exists.mp (h rfl)
    exact ⟨m, by simp [fetchM, hm]⟩

theorem resolveLaydown_none (mode : Option String) :
    resolveLaydown none mode = Except.ok "k-c-m-y" := by
  unfold resolveLaydown
  split
  · rfl
  · rfl

theorem requirePaperColor_ok (need : Bool) (pc : Option String)
    (h : need = true → pc.isSome = true) :
    requirePaperColor need pc = Except.ok () := by
  unfold requirePaperColor
  rw [if_neg]
  rintro ⟨hn, hpc⟩
  have := h hn
  rw [hpc] at this
  simp at this

theorem contains_append_single (l : List String) (m x : String) (h : ¬ x = m) :
    (l ++ [m]).contains x = l.contains x := by
  induction l with
  | nil => simp [h]
  | cons b bs ih => simp_all [List.contains_cons]

theorem activeFlags_append (l : List String) (m : String) (hm : m ∉ knownFlagIds) :
    activeFlags (l ++ [m]) = activeFlags l := by
  simp only [knownFlagIds, List.mem_cons, List.not_mem_nil, or_false, not_or] at hm
  obtain ⟨h1, h2, h3, h4, h5, h6, h7, h8, h9⟩ := hm
  unfold activeFlags
  simp only [ActiveFlags.mk.injEq]
  refine ⟨?_, ?_, ?_, ?_, ?_, ?_, ?_, ?_, ?_⟩ <;>
    apply contains_append_single <;> intro he <;> simp_all

theorem getP_append_unknown (mp : ModuleParams) (key k : String) (v : PVal)
    (h : ¬ key = k) : getP (mp ++ [(k, v)]) key = getP mp key := by
  induction mp with
  | nil =>
    have hk : ¬ k = key := fun hk => h hk.symm
    simp [getP, hk]
  | cons p ps ih =>
    obtain ⟨pk, pv⟩ := p
    simp only [List.cons_append, getP]
    split
    · rfl
    · exact ih

/-! ### C2: missing halftone entry crashes; press defaults; unknowns
ignored -/

/-- C2 counterexample: a request whose parameter bundle has no halftone
entry does not render with defaults — the run fails (the handler
dereferences moduleParams.halftone unconditionally). -/
theorem C2_counterexample :
    (render envC req2).isOk = false ∧
    getModule req2.moduleParams "halftone" = none :=
  ⟨rfl, rfl⟩

/-- C2 amended: unknown module ids in the active set and unknown
parameter ids in an entry are ignored, and a missing press entry falls
back to the documented defaults (feed vertical, laydown k-c-m-y, slur
0, pressure 1); but the halftone entry must be present — when it is
absent the run throws instead of using defaults (see the
counterexample).  Here: a run whose bundle carries halftone, lacks
press, and has an entry for every active known module succeeds. -/
theorem C2_amended (env : BrowserEnv) (req : Req) (ht : ModuleParams)
    (hht : getModule req.moduleParams "halftone" = some ht)
    (hpress : getModule req.moduleParams "press" = none)
    (hbmp : req.bitmap.isSome = true)
    (hres : ActiveResolvable (activeFlags req.activeModulesList) req.moduleParams ht) :
    (render env req).isOk = true ∧
    resolveFeed (getModule req.moduleParams "press") = some "vertical" ∧
    resolveSlur (getModule req.moduleParams "press") = some 0 ∧
    resolvePressure (getModule req.moduleParams "press") = some 1 ∧
    resolveLaydown (getModule req.moduleParams "press") (getStr ht "mode") =
      Except.ok "k-c-m-y" ∧
    (∀ m : String, m ∉ knownFlagIds →
      render env ⟨req.bitmap, req.activeModulesList ++ [m], req.moduleParams,
        req.forExport, req.previewMaxPx, req.upscale⟩ = render env req) ∧
    (∀ (mp : ModuleParams) (key k : String) (v : PVal), ¬ key = k →
      getP (mp ++ [(k, v)]) key = getP mp key) := by
  obtain ⟨bm, act, P, fe, pmx, us⟩ := req
  obtain ⟨src, hsrc⟩ := Option.isSome_iff_exists.mp hbmp
  dsimp only at hht hpress hres hsrc
  subst hsrc
  obtain ⟨r1, r2, r3, r4, r5, r6, r7, r8, r9⟩ := hres
  refine ⟨?_, ?_, ?_, ?_, ?_, ?_, ?_⟩
  · apply isOk_map
    unfold resolveRun resolveRunCore
    dsimp only
    obtain ⟨o1, ho1⟩ := fetchIf_ok (activeFlags act).filmstock P "filmstock" r1
    refine isOk_bind _ ho1 ?_
    dsimp only
    obtain ⟨o2, ho2⟩ := fetchIf_ok (activeFlags act).velox P "velox" r2
    refine isOk_bind _ ho2 ?_
    dsimp only
    obtain ⟨o3, ho3⟩ := fetchIf_ok (activeFlags act).grain P "grain" r3
    refine isOk_bind _ ho3 ?_
    dsimp only
    refine isOk_bind ht (by simp [fetchM, hht]) ?_
    dsimp only
    obtain ⟨d1, hd1⟩ := fetchDefault_ok (activeFlags act).dotgain P "dotgain" dgDefault r4
    refine isOk_bind _ hd1 ?_
    dsimp only
    obtain ⟨d2, hd2⟩ := fetchDefault_ok (activeFlags act).registration P "registration"
      regDefault r5
    refine isOk_bind _ hd2 ?_
    dsimp only
    obtain ⟨o4, ho4⟩ := fetchIf_ok (activeFlags act).inkskip P "inkskip" r6
    refine isOk_bind _ ho4 ?_
    dsimp only
    obtain ⟨o5, ho5⟩ := fetchIf_ok (activeFlags act).inkbleed P "inkbleed" r7
    refine isOk_bind _ ho5 ?_
    dsimp only
    obtain ⟨o6, ho6⟩ := fetchIf_ok (activeFlags act).paper P "paper" r8
    refine isOk_bind _ ho6 ?_
    dsimp only
    rw [hpress]
    refine isOk_bind _ (resolveLaydown_none _) ?_
    dsimp only
    refine isOk_bind _ (requirePaperColor_ok _ _
      (fun hn => r9 (by simpa using hn))) ?_
    rfl
  · rw [hpress]
    rfl
  · rw [hpress]
    rfl
  · rw [hpress]
    rfl
  · rw [hpress]
    exact resolveLaydown_none _
  · intro m hm
    unfold render resolveRun
    dsimp only
    rw [activeFlags_append act m hm]
  · intro mp key k v hk
    exact getP_append_unknown mp key k v hk

/-- C2 amended witness on the concrete press-less velox request. -/
theorem C2_amended_witness :
    (render envC reqC2).isOk = true ∧
    resolveFeed (getModule reqC2.moduleParams "press") = some "vertical" ∧
    resolveSlur (getModule reqC2.moduleParams "press") = some 0 ∧
    resolvePressure (getModule reqC2.moduleParams "press") = some 1 ∧
    resolveLaydown (getModule reqC2.moduleParams "press") (getStr htDefault "mode") =
      Except.ok "k-c-m-y" ∧
    (∀ m : String, m ∉ knownFlagIds →
      render envC ⟨reqC2.bitmap, reqC2.activeModulesList ++ [m], reqC2.moduleParams,
        reqC2.forExport, reqC2.previewMaxPx, reqC2.upscale⟩ = render envC reqC2) ∧
    (∀ (mp : ModuleParams) (key k : String) (v : PVal), ¬ key = k →
      getP (mp ++ [(k, v)]) key = getP mp key) :=
  C2_amended envC reqC2 htDefault rfl rfl rfl
    ⟨fun h => absurd h (by decide), fun _ => rfl, fun h => absurd h (by decide),
     fun h => absurd h (by decide), fun h => absurd h (by decide),
     fun h => absurd h (by decide), fun h => absurd h (by decide),
     fun h => absurd h (by decide), fun _ => rfl⟩

/-! ### Dimension behavior of the pipeline -/

theorem applyFilmStock_w (pw : ℚ → ℚ) (fp : ModuleParams) (c : Raster) :
    (applyFilmStock pw fp c).w = c.w := by
  unfold applyFilmStock
  split
  · rfl
  · rfl

theorem applyFilmStock_h (pw : ℚ → ℚ) (fp : ModuleParams) (c : Raster) :
    (applyFilmStock pw fp c).h = c.h := by
  unfold applyFilmStock
  split
  · rfl
  · rfl

theorem applyVelox_w (ex : ℚ → ℚ) (vp : ModuleParams) (c : Raster) :
    (applyVelox ex vp c).w = c.w := rfl

theorem applyVelox_h (ex : ℚ → ℚ) (vp : ModuleParams) (c : Raster) :
    (applyVelox ex vp c).h = c.h := rfl

theorem applyGrain_w (ent : ℕ → ℚ) (gp : ModuleParams) (c : Raster) :
    (applyGrain ent gp c).w = c.w := rfl

theorem applyGrain_h (ent : ℕ → ℚ) (gp : ModuleParams) (c : Raster) :
    (applyGrain ent gp c).h = c.h := rfl

theorem applyInkBleed_w (sq : ℚ → ℚ) (p : ModuleParams) (pc : String)
    (fd : Option String) (img : Raster) : (applyInkBleed sq p pc fd img).w = img.w := by
  unfold applyInkBleed
  dsimp only
  split
  · rfl
  · rfl

theorem applyInkBleed_h (sq : ℚ → ℚ) (p : ModuleParams) (pc : String)
    (fd : Option String) (img : Raster) : (applyInkBleed sq p pc fd img).h = img.h := by
  unfold applyInkBleed
  dsimp only
  split
  · rfl
  · rfl

theorem applyPaper_w (ent : ℕ → ℚ) (pp : ModuleParams) (pc : String)
    (pr : Option ℚ) (fd : Option String) (img : Raster) :
    (applyPaper ent pp pc pr fd img).w = img.w := rfl

theorem applyPaper_h (ent : ℕ → ℚ) (pp : ModuleParams) (pc : String)
    (pr : Option ℚ) (fd : Option String) (img : Raster) :
    (applyPaper ent pp pc pr fd img).h = img.h := rfl

theorem paperBase_w (w h : ℕ) (pc : Option String) : (paperBase w h pc).w = w := rfl

theorem paperBase_h (w h : ℕ) (pc : Option String) : (paperBase w h pc).h = h := rfl

theorem foldl_multiply_w (l : List Raster) (acc : Raster) :
    (l.foldl drawImageMultiply acc).w = acc.w := by
  induction l generalizing acc with
  | nil => rfl
  | cons p t ih => exact ih (drawImageMultiply acc p)

theorem foldl_multiply_h (l : List Raster) (acc : Raster) :
    (l.foldl drawImageMultiply acc).h = acc.h := by
  induction l generalizing acc with
  | nil => rfl
  | cons p t ih => exact ih (drawImageMultiply acc p)

/-- On export with unit upscale, the pixel pipeline keeps the source
dimensions: every stage yields a raster of the dimensions of its input,
and the composite canvas is created at those dimensions. -/
theorem renderCore_dims (env : BrowserEnv) (cfg : RunCfg)
    (hfe : cfg.forExport = true) (hup : cfg.upscale = 1) :
    (renderCore env cfg).w = cfg.src.w ∧ (renderCore env cfg).h = cfg.src.h := by
  unfold renderCore
  dsimp only
  rw [hfe, hup]
  simp only [eq_self_iff_true, if_true, lt_self_iff_false, and_false, if_false]
  rcases cfg.filmstockP with _ | fp <;> rcases cfg.veloxP with _ | vp <;>
    rcases cfg.grainP with _ | gp <;> rcases cfg.inkbleedP with _ | ib <;>
    rcases cfg.paperP with _ | pp <;>
    constructor <;>
    simp only [applyFilmStock_w, applyFilmStock_h, applyVelox_w, applyVelox_h,
      applyGrain_w, applyGrain_h, applyInkBleed_w, applyInkBleed_h,
      applyPaper_w, applyPaper_h, foldl_multiply_w, foldl_multiply_h,
      paperBase_w, paperBase_h]

theorem resolveRunCore_ok_fields (fl : ActiveFlags) (P : Params) (src : Raster)
    (fe : Bool) (pmx us : ℕ) (cfg : RunCfg)
    (h : resolveRunCore fl P (some src) fe pmx us = Except.ok cfg) :
    cfg.src = src ∧ cfg.forExport = fe ∧ cfg.upscale = us := by
  unfold resolveRunCore at h
  dsimp only at h
  obtain ⟨a1, h1, h⟩ := exceptBindOk h
  obtain ⟨a2, h2, h⟩ := exceptBindOk h
  obtain ⟨a3, h3, h⟩ := exceptBindOk h
  obtain ⟨a4, h4, h⟩ := exceptBindOk h
  obtain ⟨a5, h5, h⟩ := exceptBindOk h
  obtain ⟨a6, h6, h⟩ := exceptBindOk h
  obtain ⟨a7, h7, h⟩ := exceptBindOk h
  obtain ⟨a8, h8, h⟩ := exceptBindOk h
  obtain ⟨a9, h9, h⟩ := exceptBindOk h
  obtain ⟨a10, h10, h⟩ := exceptBindOk h
  obtain ⟨a11, h11, h⟩ := exceptBindOk h
  injection h with h
  subst h
  exact ⟨rfl, rfl, rfl⟩

/-! ### C8: export at unit upscale keeps the source dimensions -/

/-- C8: when forExport is true and upscale is 1, neither the preview
resample nor the export upscale fires, every stage preserves
dimensions, and the reply raster has exactly the source size. -/
theorem C8_dims (env : BrowserEnv) (req : Req) (src r : Raster)
    (hbmp : req.bitmap = some src) (hfe : req.forExport = true)
    (hup : req.upscale = 1) (h : render env req = Except.ok r) :
    r.w = src.w ∧ r.h = src.h := by
  obtain ⟨cfg, hcfg, hr⟩ := exceptMapOk (renderCore env) (resolveRun req) r h
  obtain ⟨bm, act, P, fe, pmx, us⟩ := req
  dsimp only at hbmp hfe hup hcfg
  subst hbmp hfe hup
  unfold resolveRun at hcfg
  dsimp only at hcfg
  obtain ⟨hsrc, hfe2, hup2⟩ := resolveRunCore_ok_fields _ _ _ _ _ _ _ hcfg
  have hd := renderCore_dims env cfg hfe2 hup2
  exact ⟨by rw [hr, hd.1, hsrc], by rw [hr, hd.2, hsrc]⟩

/-- C8 witness: the concrete minimal export run keeps the 1-by-1 size. -/
theorem C8_dims_witness : rW.w = bmp1.w ∧ rW.h = bmp1.h :=
  C8_dims envC req3 bmp1 rW rfl rfl rfl rfl

/-! ### C1: plateIndex is the post-sort draw index -/

/-- C1 counterexample: under the default laydown k-c-m-y the cmyk
channels are sorted before plateIndex is assigned, so cyan (first in
the pre-sort channel array) gets plateIndex 2, not 1 — and with fanout
10 the first pre-sort plate receives the nonzero fan-out budget 10/3. -/
theorem C1_counterexample :
    plateAssignments htDefault regDefault "k-c-m-y" =
      [("k", 1), ("c", 2), ("m", 3), ("y", 4)] ∧
    plateAssignments htDefault regDefault "k-c-m-y" ≠
      [("c", 1), ("m", 2), ("y", 3), ("k", 4)] ∧
    maxStretch 10 2 = 10/3 ∧ maxStretch 10 2 ≠ 0 := by
  refine ⟨rfl, by decide, ?_, ?_⟩
  · unfold maxStretch
    norm_num
  · unfold maxStretch
    norm_num

/-- C1 amended: plateIndex (which drives the fan-out budget
fanout·(plateIndex−1)/3, the ink-skip seed plateIndex·1000 and the
hickey seed plateIndex·5000) is the plate's 1-based position in the
laydown-sorted draw order; the first plate drawn receives no fan-out.
It matches the pre-sort channel order only when laydown = c-m-y-k. -/
theorem C1_amended (ht reg : ModuleParams) (ld : String)
    (hmode : getStr ht "mode" = some "cmyk")
    (hld : ld ∈ ["k-c-m-y", "y-m-c-k", "c-m-y-k", "m-c-y-k"]) :
    plateAssignments ht reg ld =
      (splitDash ld).enum.map (fun p => (p.2, p.1 + 1)) ∧
    ∀ f : ℚ, maxStretch f 1 = 0 := by
  constructor
  · fin_cases hld <;> simp only [plateAssignments, channelsFor, hmode] <;> rfl
  · intro f
    unfold maxStretch
    norm_num

/-- C1 amended witness at the y-m-c-k laydown. -/
theorem C1_amended_witness :
    plateAssignments htDefault regDefault "y-m-c-k" =
      (splitDash "y-m-c-k").enum.map (fun p => (p.2, p.1 + 1)) ∧
    ∀ f : ℚ, maxStretch f 1 = 0 :=
  C1_amended htDefault regDefault "y-m-c-k" rfl (by decide)

/-! ### C7: duotone ignores the laydown order -/

/-- C7 counterexample: in duotone mode the worker always renders
plate 2 first and plate 1 second, while the claim (laydown k-c-m-y
applied to the plates, k standing for plate 1 and c for plate 2) puts
plate 1 first. -/
theorem C7_counterexample :
    (channelsFor htDuo regDefault "k-c-m-y").map Channel.id = ["2", "1"] ∧
    duotoneClaimOrder "k-c-m-y" = ["1", "2"] ∧
    (channelsFor htDuo regDefault "k-c-m-y").map Channel.id ≠
      duotoneClaimOrder "k-c-m-y" := by
  refine ⟨rfl, rfl, by decide⟩

/-- C7 amended: duotone plates are rendered plate 2 (duotoneColor2,
angleC+master, value L/255) first, then plate 1 (duotoneColor1,
angleK+master, value 1−L/255), for every laydown string — the laydown
sort runs only in cmyk mode, so plate 2 draws first and receives
plateIndex 1, plate 1 draws second with plateIndex 2. -/
theorem C7_amended (ht reg : ModuleParams) (ld ld2 : String)
    (hmode : getStr ht "mode" = some "duotone") :
    channelsFor ht reg ld = channelsFor ht reg ld2 ∧
    (channelsFor ht reg ld).map Channel.id = ["2", "1"] ∧
    ((channelsFor ht reg ld).enum.map (fun p => (p.2.id, p.1 + 1))) =
      [("2", 1), ("1", 2)] ∧
    channelsFor ht reg ld =
      duotoneChannels ht reg ((getNum ht "masterAngle").getD 0) := by
  simp only [channelsFor, hmode]
  exact ⟨rfl, rfl, rfl, rfl⟩

/-- C7 amended witness on the duotone fixture, comparing two laydowns. -/
theorem C7_amended_witness :
    channelsFor htDuo regDefault "k-c-m-y" = channelsFor htDuo regDefault "y-m-c-k" ∧
    (channelsFor htDuo regDefault "k-c-m-y").map Channel.id = ["2", "1"] ∧
    ((channelsFor htDuo regDefault "k-c-m-y").enum.map (fun p => (p.2.id, p.1 + 1))) =
      [("2", 1), ("1", 2)] ∧
    channelsFor htDuo regDefault "k-c-m-y" =
      duotoneChannels htDuo regDefault ((getNum htDuo "masterAngle").getD 0) :=
  C7_amended htDuo regDefault "k-c-m-y" "y-m-c-k" rfl

/-! ### C9: ink-skip blob count -/

/-- C9 counterexample: at scale 2/5 (the documented default 0.4) the
worker rounds before tripling (worker.js 296-297), giving 30 blobs,
while the claimed formula rounds the tripled product, giving 31. -/
theorem C9_counterexample :
    adjustedBlobCount (2/5) = 30 ∧ specBlobCount (2/5) = 31 ∧
    adjustedBlobCount (2/5) ≠ specBlobCount (2/5) := by
  have h1 : adjustedBlobCount (2/5) = 30 := by
    have : round ((1 - (2:ℚ)/5) * 12 + 3) = 10 := by
      rw [round_eq]
      norm_num
    simp only [adjustedBlobCount, blobCountRaw, this]
    norm_num
  have h2 : specBlobCount (2/5) = 31 := by
    have hmax : max (3:ℚ) ((1 - (2:ℚ)/5) * 12 + 3) = 51/5 := by
      rw [max_eq_right (by norm_num)]
      norm_num
    simp only [specBlobCount, hmax]
    rw [round_eq]
    norm_num
  exact ⟨h1, h2, by rw [h1, h2]; norm_num⟩

/-- C9 amended: buildInkSkipMap places exactly
max(3, round((1−scale)·12 + 3)) · 3 blobs — the rounding applied before
the multiplication by 3. -/
theorem C9_amended (w h : ℕ) (intensity scale : ℚ) (seedOffset : ℕ)
    (feedDir : Option String) :
    (inkSkipBlobs w h intensity scale seedOffset feedDir).length =
      (3 * max 3 (round ((1 - scale) * 12 + 3))).toNat := by
  simp [inkSkipBlobs, adjustedBlobCount, blobCountRaw, mul_comm]

/-! ### C10: velox luminance index bounds -/

/-- C10: for 8-bit inputs the rounded Rec.601 luminance index lies in
[0, 255], so applyVelox's 256-entry LUT lookup is in bounds. -/
theorem C10_lumIndex_bounds (r g b : ℕ) (hr : r ≤ 255) (hg : g ≤ 255) (hb : b ≤ 255) :
    0 ≤ lumIndex r g b ∧ lumIndex r g b ≤ 255 := by
  have hq0 : (0 : ℚ) ≤ LUM_R r + LUM_G g + LUM_B b := by
    unfold LUM_R LUM_G LUM_B
    positivity
  have hq1 : LUM_R r + LUM_G g + LUM_B b ≤ 255 := by
    unfold LUM_R LUM_G LUM_B
    have hr2 : (r : ℚ) ≤ 255 := by exact_mod_cast hr
    have hg2 : (g : ℚ) ≤ 255 := by exact_mod_cast hg
    have hb2 : (b : ℚ) ≤ 255 := by exact_mod_cast hb
    nlinarith
  constructor
  · unfold lumIndex
    rw [round_eq]
    have : (0 : ℤ) = ⌊(1 : ℚ)/2⌋ := by norm_num
    rw [this]
    exact Int.floor_le_floor (by linarith)
  · unfold lumIndex
    rw [round_eq]
    have : (255 : ℤ) = ⌊(255 : ℚ) + 1/2⌋ := by norm_num
    rw [this]
    exact Int.floor_le_floor (by linarith)

/-- C10 witness at the extreme input 255, 255, 255. -/
theorem C10_lumIndex_bounds_witness :
    0 ≤ lumIndex 255 255 255 ∧ lumIndex 255 255 255 ≤ 255 :=
  C10_lumIndex_bounds 255 255 255 (by decide) (by decide) (by decide)

/-! ### C4: determinism of the seeded stages -/

/-- C4: the ink-skip map and the hickey defect list are pure functions
of their arguments — the PRNG is the seeded mulberry32 recurrence, no
unseeded entropy stream is consumed (grain and the paper map, by
contrast, take an entropy stream argument), so equal inputs give
bit-identical maps and identical defect positions and radii across
runs.  The square-root primitive sq is the same fixed function in both
runs. -/
theorem C4_determinism (sq sq2 : ℚ → ℚ) (w w2 h h2 : ℕ)
    (intensity intensity2 scale scale2 : ℚ) (so so2 : ℕ) (fd fd2 : Option String)
    (hp hp2 : ModuleParams) (col col2 : Option String) (pidx pidx2 : ℕ)
    (hsq : sq = sq2) (hw : w = w2) (hh : h = h2) (hi : intensity = intensity2)
    (hs : scale = scale2) (hso : so = so2) (hfd : fd = fd2) (hhp : hp = hp2)
    (hcol : col = col2) (hpi : pidx = pidx2) :
    buildInkSkipMap sq w h intensity scale so fd =
      buildInkSkipMap sq2 w2 h2 intensity2 scale2 so2 fd2 ∧
    applyPlateHickeys w h hp col pidx = applyPlateHickeys w2 h2 hp2 col2 pidx2 := by
  subst hsq hw hh hi hs hso hfd hhp hcol hpi
  exact ⟨rfl, rfl⟩

/-- C4 witness: two identical runs at concrete arguments. -/
theorem C4_determinism_witness :
    buildInkSkipMap (fun q => q) 4 4 (3/10) (2/5) 1 (some "vertical") =
      buildInkSkipMap (fun q => q) 4 4 (3/10) (2/5) 1 (some "vertical") ∧
    applyPlateHickeys 4 4 [("count", PVal.num 12), ("sizeMax", PVal.num 8)]
        (some "#009fce") 1 =
      applyPlateHickeys 4 4 [("count", PVal.num 12), ("sizeMax", PVal.num 8)]
        (some "#009fce") 1 :=
  C4_determinism _ _ _ _ _ _ _ _ _ _ _ _ _ _ _ _ _ _ _ _
    rfl rfl rfl rfl rfl rfl rfl rfl rfl rfl

end Halftone
